import Mathlib

/-!
# GraphiX scene / mode / picking engine

A shallow embedding of `GraphiX/src/Scene/Scene.cpp`, `GraphiX/include/Gfx/Shape.h` and
`trunk/GraphiX/src/Control/NodeCreationMode.cpp`.

* Heap objects (`Shape`, `Mode`, `Scene`) live in a `World`, addressed by natural numbers.
  `new` hands out the next unused address and never reuses a released one.
* A pointer is an `Option Nat`; `none` is a pointer that holds no address (NULL, or a
  member that was never assigned).  Dereferencing a pointer whose object is not in the
  world has no defined result: the operation returns `none`.
* `&shapes` and `&selected` of the scene object at address `a` are both represented by `a`.
* The render system (OpenGL / GLU) and the classes whose sources are not available
  are collected in `RenderSystem`.
* A finite `double` is an exact rational (`Coord`).  A `float` is a `FloatVal`; the
  conversion from `double` to `float` rounds to the nearest binary32 number (`toFloat`).
-/

namespace GRAPHIX

/-- A finite value of type `double`. -/
abbrev Coord := Rat

/-- A value of type `float`: a finite number or an infinity. -/
inductive FloatVal where
  | finite (q : Rat)
  | infinite (negative : Bool)
  deriving DecidableEq

/-- The exponent of the binary32 binade of the positive rational `n / d`: the largest `e`
with `-125 ≤ e ≤ 127` and `2^e ≤ n / d`, searched downwards through the candidates
`j - 126`; `-126` (the lowest normal binade and the subnormal range) when there is none. -/
def floatExponent (n d : Nat) : Nat → Int
  | 0 => -126
  | j + 1 =>
    let e : Int := ((j + 1 : Nat) : Int) - 126
    if (if 0 ≤ e then d * 2 ^ e.toNat ≤ n else d ≤ n * 2 ^ (-e).toNat) then e
    else floatExponent n d j

/-- Conversion of a finite `double` to `float`: IEEE 754 binary32, round to nearest, ties
to even.  The value is rounded to a multiple of `2^(e - 23)`, `e` the exponent of its
binade; a magnitude that rounds to 2^128 or more becomes an infinity, a magnitude of at most
half the smallest subnormal becomes 0. -/
def toFloat (q : Rat) : FloatVal :=
  if q.num = 0 then FloatVal.finite 0
  else
    let n := q.num.natAbs
    let d := q.den
    let qe : Int := floatExponent n d 253 - 23
    let num := if 0 ≤ qe then n else n * 2 ^ (-qe).toNat
    let den := if 0 ≤ qe then d * 2 ^ qe.toNat else d
    let r := num / den
    let rem := num % den
    let r1 := if den < 2 * rem ∨ (2 * rem = den ∧ r % 2 = 1) then r + 1 else r
    let m : Int := if q.num < 0 then -(r1 : Int) else (r1 : Int)
    if 0 ≤ qe then
      if 2 ^ 128 ≤ r1 * 2 ^ qe.toNat then FloatVal.infinite (decide (q.num < 0))
      else FloatVal.finite (Rat.ofInt (m * 2 ^ qe.toNat))
    else FloatVal.finite (mkRat m (2 ^ (-qe).toNat))

/-- Shape.h, lines 22-26: the shapes that can be generated. -/
inductive SHAPES where
  | CIRCLE
  | LINE
  deriving DecidableEq

/-- Modelled from the spec: the mode kinds (the enum is declared in a header that is not
among the sources); these are the two constants Scene.cpp uses, in the order in which the
constructor registers them. -/
inductive MODES where
  | NODECREATION
  | EDGECREATION
  deriving DecidableEq

/-- Modelled from the spec: Color.h is not among the sources; a colour is (r, g, b, a). -/
structure Color where
  r : Coord
  g : Coord
  b : Coord
  a : Coord
  deriving DecidableEq

/-- A shape object: the data members of `Shape` (Shape.h, lines 139-142: `float xCoord,
yCoord`), the dynamic type reported by the pure virtual `getType()`, and the radius
member of `Circle` (Circle.h is not among the sources; a LINE does not use it). -/
structure Shape where
  type : SHAPES
  xCoord : FloatVal
  yCoord : FloatVal
  color : Color
  highlight : Color
  selected : Bool
  radius : Coord
  deriving DecidableEq

/-- Shape::getType. -/
def Shape.getType (s : Shape) : SHAPES := s.type

/-- Shape::isSelected. -/
def Shape.isSelected (s : Shape) : Bool := s.selected

/-- Shape::toggleSelected. -/
def Shape.toggleSelected (s : Shape) : Shape := { s with selected := !s.selected }

/-- The `int viewport[4]` array: x, y, width, height. -/
structure Viewport where
  x : Int
  y : Int
  width : Int
  height : Int
  deriving DecidableEq

/-- Modelled from the spec: the members of the `Mode` base class (Mode.h is not among the
sources): the dynamic kind reported by `getMode()`, the two container pointers returned by
`getShapesVector()` / `getSelectedVector()`, and the pending source node an
EdgeCreationMode remembers between two clicks. -/
structure Mode where
  kind : MODES
  shapes : Option Nat
  selected : Option Nat
  pending : Option Nat
  deriving DecidableEq

/-- Mode::getMode. -/
def Mode.getMode (m : Mode) : MODES := m.kind

/-- Mode::getShapesVector. -/
def Mode.getShapesVector (m : Mode) : Option Nat := m.shapes

/-- Mode::getSelectedVector. -/
def Mode.getSelectedVector (m : Mode) : Option Nat := m.selected

/-- The data members of `Scene` that Scene.cpp reads and writes.  `pickBuffer` lists the
cells of the array that hold a defined value, from index 0; `shapes`, `selected` hold
`Shape*`, `modes` is the `std::map<MODES, Mode*>` in key order, `currentMode` a `Mode*`. -/
structure Scene where
  bufferSize : Nat
  pickBuffer : List Nat
  shapes : List Nat
  selected : List Nat
  modes : List (MODES × Nat)
  currentMode : Option Nat
  viewport : Viewport
  deriving DecidableEq

/-- The program state: the allocator's next address, the three kinds of heap object and
the render system's current viewport. -/
structure World where
  next : Nat
  shapeAt : Nat → Option Shape
  modeAt : Nat → Option Mode
  sceneAt : Nat → Option Scene
  glViewport : Viewport

/-- The render system and the classes whose sources are not available. -/
structure RenderSystem where
  /-- The value of `glRenderMode(GL_RENDER)` that ends a selection pass: given the capacity
  passed to `glSelectBuffer`, the names loaded during the pass with the shapes drawn under
  them, the pick position and the viewport, the number of hit records, or a negative
  number when the records did not fit into the buffer. -/
  glRenderMode : Nat → List (Nat × Shape) → Int → Int → Viewport → Int
  /-- The words the same selection pass leaves in the select buffer. -/
  hitRecords : Nat → List (Nat × Shape) → Int → Int → Viewport → List Nat
  /-- The x and y results of `gluUnProject(winX, winY, 0, model, projection, viewport, ..)`. -/
  gluUnProject : Int → Int → Viewport → Coord × Coord
  /-- Fill colour of a shape built by `Shape(float x, float y)`. -/
  initColor : Color
  /-- Highlight colour of a shape built by `Shape(float x, float y)`. -/
  initHighlight : Color
  /-- The identifier Mode::selectLogic reads out of the hit records. -/
  struck : Nat → List Nat → Nat
  /-- The copy constructor of EdgeCreationMode; its only argument is the source mode. -/
  edgeModeCopy : Mode → Mode
  /-- The click handler of the EdgeCreationMode at the given address. -/
  edgeHandleClick : World → Nat → Coord → Coord → Nat → List Nat → Option World

/-- The width of `unsigned`. -/
def UNSIGNED_MOD : Nat := 2 ^ 32

/-- The macro `GRAPHIX_DEFAULT_PICK_BUFFER_SIZE` (Scene.cpp, line 19). -/
def GRAPHIX_DEFAULT_PICK_BUFFER_SIZE : Nat := 16

/-- The value of the literal `.1f` used as the radius of a new circle: 13421773 / 2^27,
the binary32 number nearest to 0.1.  Both call sites hold it in a floating variable
(`float radius`, `double rad`), which keeps the value unchanged. -/
def defaultRadius : Coord := mkRat 13421773 134217728

/-- Conversion of a `GLint` to `unsigned`. -/
def toUnsigned (i : Int) : Nat := (i % (UNSIGNED_MOD : Int)).toNat

/-- Store a shape object at an address. -/
def World.setShape (w : World) (a : Nat) (v : Option Shape) : World :=
  { w with shapeAt := fun b => if b = a then v else w.shapeAt b }

/-- Store a mode object at an address. -/
def World.setMode (w : World) (a : Nat) (v : Option Mode) : World :=
  { w with modeAt := fun b => if b = a then v else w.modeAt b }

/-- Store a scene object at an address. -/
def World.setScene (w : World) (a : Nat) (v : Option Scene) : World :=
  { w with sceneAt := fun b => if b = a then v else w.sceneAt b }

/-- The expression `new T(..)` for a shape: the object is placed at the next address. -/
def World.newShape (w : World) (v : Shape) : Nat × World :=
  (w.next, { (w.setShape w.next (some v)) with next := w.next + 1 })

/-- The expression `new T(..)` for a mode. -/
def World.newMode (w : World) (v : Mode) : Nat × World :=
  (w.next, { (w.setMode w.next (some v)) with next := w.next + 1 })

/-- Modelled from the spec: the constructor `Circle(x, y, radius)` (Circle.h is not among
the sources): a CIRCLE at the given position with the given radius, not selected.  The
position reaches the base constructor `Shape(float x, float y)` (Shape.h, line 41), so
the `double` arguments are converted to `float`. -/
def Circle.new (rs : RenderSystem) (x y radius : Coord) : Shape :=
  { type := SHAPES.CIRCLE, xCoord := toFloat x, yCoord := toFloat y, color := rs.initColor,
    highlight := rs.initHighlight, selected := false, radius := radius }

/-- Modelled from the spec: the copy constructor `Circle(const Circle&)`; the clone has
the value of its source. -/
def Circle.clone (c : Shape) : Shape := c

/-- Position of a key in the order of the `MODES` enum. -/
def MODES.rank : MODES → Nat
  | MODES.NODECREATION => 0
  | MODES.EDGECREATION => 1

/-- The assignment `modes[k] = v` on the `std::map`: replaces the entry with key `k`, or
inserts it at its place in key order. -/
def mapAssign : List (MODES × Nat) → MODES → Nat → List (MODES × Nat)
  | [], k, v => [(k, v)]
  | (k0, v0) :: rest, k, v =>
    if k0 = k then (k, v) :: rest
    else if k.rank < k0.rank then (k, v) :: (k0, v0) :: rest
    else (k0, v0) :: mapAssign rest k v

/-- Modelled from the spec: Mode::selectLogic (Mode.cpp is not among the sources).  With
a hit count above 0 the struck shape is resolved by its identifier, its selection flag is
toggled, and it is added to or removed from the shared selected set accordingly; an
identifier outside the registry is ignored; with 0 hits nothing changes. -/
def Mode.selectLogic (rs : RenderSystem) (w : World) (m : Mode) (hits : Nat)
    (pickBuffer : List Nat) : World :=
  if hits = 0 then w else
  match m.shapes, m.selected with
  | some a, some b =>
    match w.sceneAt a, w.sceneAt b with
    | some sa, some sb =>
      match sa.shapes.get? (rs.struck hits pickBuffer) with
      | none => w
      | some p =>
        match w.shapeAt p with
        | none => w
        | some sh =>
          let w1 := w.setShape p (some sh.toggleSelected)
          if sh.toggleSelected.isSelected then
            w1.setScene b (some { sb with selected := sb.selected ++ [p] })
          else
            w1.setScene b (some { sb with selected := sb.selected.filter (fun q => q != p) })
    | _, _ => w
  | _, _ => w

/-- The loop of NodeCreationMode::pickLogic (lines 52-57) from registry position `i` on:
the `pick(i)` calls it issues, each as the identifier paired with the address of the
shape that receives the call.  `++i` is on an `unsigned`. -/
def NodeCreationMode.pickLoop (w : World) : List Nat → Nat → Option (List (Nat × Nat))
  | [], _ => some []
  | p :: rest, i =>
    match w.shapeAt p with
    | none => none
    | some sh =>
      match NodeCreationMode.pickLoop w rest ((i + 1) % UNSIGNED_MOD) with
      | none => none
      | some calls => some (if sh.getType = SHAPES.CIRCLE then (i, p) :: calls else calls)

/-- NodeCreationMode::pickLogic (lines 48-58). -/
def NodeCreationMode.pickLogic (w : World) (m : Mode) : Option (List (Nat × Nat)) :=
  match m.getShapesVector with
  | none => none
  | some a =>
    match w.sceneAt a with
    | none => none
    | some s => NodeCreationMode.pickLoop w s.shapes 0

/-- Modelled from the spec: EdgeCreationMode::pickLogic (EdgeCreationMode.cpp is not among
the sources): the pick pass arms node-kind shapes, as in node-creation mode. -/
def EdgeCreationMode.pickLogic (w : World) (m : Mode) : Option (List (Nat × Nat)) :=
  NodeCreationMode.pickLogic w m

/-- The virtual call `mode->pickLogic()`. -/
def Mode.pickLogic (w : World) (m : Mode) : Option (List (Nat × Nat)) :=
  match m.getMode with
  | MODES.NODECREATION => NodeCreationMode.pickLogic w m
  | MODES.EDGECREATION => EdgeCreationMode.pickLogic w m

/-- NodeCreationMode::selectLogic (lines 60-64): the call is passed on to the base class. -/
def NodeCreationMode.selectLogic (rs : RenderSystem) (w : World) (m : Mode) (hits : Nat)
    (pickBuffer : List Nat) : World :=
  Mode.selectLogic rs w m hits pickBuffer

/-- NodeCreationMode::handleClick (lines 32-46). -/
def NodeCreationMode.handleClick (rs : RenderSystem) (w : World) (m : Mode) (x y : Coord)
    (hits : Nat) (pickBuffer : List Nat) : Option World :=
  match m.getShapesVector with
  | none => some w
  | some a =>
    match w.sceneAt a with
    | none => none
    | some s =>
      let w1 :=
        if hits < 1 then
          let r := w.newShape (Circle.new rs x y defaultRadius)
          r.2.setScene a (some { s with shapes := s.shapes ++ [r.1] })
        else w
      some (NodeCreationMode.selectLogic rs w1 m hits pickBuffer)

/-- The virtual call `mode->handleClick(x, y, hits, pickBuffer)` on the mode object at
address `p`. -/
def Mode.handleClick (rs : RenderSystem) (w : World) (p : Nat) (x y : Coord) (hits : Nat)
    (pickBuffer : List Nat) : Option World :=
  match w.modeAt p with
  | none => none
  | some m =>
    match m.getMode with
    | MODES.NODECREATION => NodeCreationMode.handleClick rs w m x y hits pickBuffer
    | MODES.EDGECREATION => rs.edgeHandleClick w p x y hits pickBuffer

/-- The constructor `NodeCreationMode(shapes, selected)` (lines 18-21). -/
def NodeCreationMode.new (shapes selected : Option Nat) : Mode :=
  { kind := MODES.NODECREATION, shapes := shapes, selected := selected, pending := none }

/-- The copy constructor `NodeCreationMode(const NodeCreationMode& rhs)` (lines 23-26):
the base is built from `rhs.getShapesVector()` and `rhs.getSelectedVector()`. -/
def NodeCreationMode.copy (rhs : Mode) : Mode :=
  NodeCreationMode.new rhs.getShapesVector rhs.getSelectedVector

/-- Modelled from the spec: the constructor `EdgeCreationMode(shapes, selected)`
(EdgeCreationMode.cpp is not among the sources); no source node is pending. -/
def EdgeCreationMode.new (shapes selected : Option Nat) : Mode :=
  { kind := MODES.EDGECREATION, shapes := shapes, selected := selected, pending := none }

/-- The read `modes[k]` on the `std::map`, for a key that may be absent. -/
def mapFind : List (MODES × Nat) → MODES → Option Nat
  | [], _ => none
  | (k0, v0) :: rest, k => if k0 = k then some v0 else mapFind rest k

/-- A scene object whose members are default-constructed and whose scalar members were
never assigned: the state in which a constructor body starts. -/
def Scene.raw : Scene :=
  { bufferSize := 0, pickBuffer := [], shapes := [], selected := [], modes := [],
    currentMode := none, viewport := ⟨0, 0, 0, 0⟩ }

/-- Scene::Scene() (lines 23-43) for a scene object placed at the next address; returns
that address. -/
def Scene.new (w : World) : Nat × World :=
  let a := w.next
  let w0 : World := { w with next := a + 1 }
  let r1 := w0.newMode (NodeCreationMode.new (some a) (some a))
  let r2 := r1.2.newMode (EdgeCreationMode.new (some a) (some a))
  let modes := mapAssign (mapAssign [] MODES.NODECREATION r1.1) MODES.EDGECREATION r2.1
  let s : Scene :=
    { Scene.raw with
      bufferSize := GRAPHIX_DEFAULT_PICK_BUFFER_SIZE
      modes := modes
      currentMode := mapFind modes MODES.NODECREATION }
  (a, r2.2.setScene a (some s))

/-- The shape loop of Scene::copy (lines 187-203) over the source registry `rhsShapes`:
`i` is the `unsigned` loop counter, compared with `rhs.shapes.size()` and incremented
with wrap-around; the destination's `shapes` and `selected` vectors are accumulators;
`fuel` is the number of iterations still allowed. -/
def Scene.copyShapes (rhsShapes : List Nat) :
    Nat → World → Nat → List Nat → List Nat → Option (World × List Nat × List Nat)
  | 0, w, i, shapes, selected =>
    if i < rhsShapes.length then none else some (w, shapes, selected)
  | fuel + 1, w, i, shapes, selected =>
    if i < rhsShapes.length then
      match rhsShapes[i]? with
      | none => none
      | some p =>
        match w.shapeAt p with
        | none => none
        | some shape =>
          match shape.getType with
          | SHAPES.CIRCLE =>
            let r := w.newShape (Circle.clone shape)
            Scene.copyShapes rhsShapes fuel r.2 ((i + 1) % UNSIGNED_MOD) (shapes ++ [r.1])
              (if (Circle.clone shape).isSelected then selected ++ [r.1] else selected)
          | _ => Scene.copyShapes rhsShapes fuel w ((i + 1) % UNSIGNED_MOD) shapes selected
    else some (w, shapes, selected)

/-- The mode loop of Scene::copy (lines 205-226) over the source map, with the
destination's `modes` map as accumulator. -/
def Scene.copyModes (rs : RenderSystem) (w : World) : List (MODES × Nat) →
    List (MODES × Nat) → Option (World × List (MODES × Nat))
  | [], modes => some (w, modes)
  | (modeType, modePtr) :: rest, modes =>
    match w.modeAt modePtr with
    | none => none
    | some theMode =>
      match theMode.getMode with
      | MODES.NODECREATION =>
        let r := w.newMode (NodeCreationMode.copy theMode)
        Scene.copyModes rs r.2 rest (mapAssign modes modeType r.1)
      | MODES.EDGECREATION =>
        let r := w.newMode (rs.edgeModeCopy theMode)
        Scene.copyModes rs r.2 rest (mapAssign modes modeType r.1)

/-- Scene::copy (lines 179-227) run on the scene object at `a` with the scene at `r` as
`rhs`; the two are distinct objects at both call sites.  The shape loop counts from 0
and is allowed `rhs.shapes.size()` iterations: it ends after exactly that many, or (when
the size does not fit the `unsigned` counter) it never ends and there is no result. -/
def Scene.copy (rs : RenderSystem) (w : World) (a r : Nat) : Option World :=
  match w.sceneAt a, w.sceneAt r with
  | some this, some rhs =>
    match Scene.copyShapes rhs.shapes rhs.shapes.length w 0 this.shapes this.selected with
    | none => none
    | some (w1, shapes, selected) =>
      match Scene.copyModes rs w1 rhs.modes this.modes with
      | none => none
      | some (w2, modes) =>
        some (w2.setScene a (some
          { this with
            bufferSize := rhs.bufferSize
            pickBuffer := rhs.pickBuffer.take rhs.bufferSize
            shapes := shapes
            selected := selected
            modes := modes }))
  | _, _ => none

/-- The copy constructor Scene::Scene(const Scene& rhs) (lines 50-53) for a scene object
placed at the next address; returns that address.  The reference `rhs` is bound to a
scene that exists before the new object does. -/
def Scene.copyConstruct (rs : RenderSystem) (w : World) (r : Nat) : Option (Nat × World) :=
  match w.sceneAt r with
  | none => none
  | some _ =>
    let a := w.next
    let w0 : World := ({ w with next := a + 1 } : World).setScene a (some Scene.raw)
    match Scene.copy rs w0 a r with
    | none => none
    | some w1 => some (a, w1)

/-- The shape loop of Scene::destroy (lines 234-235): `delete shapes[i]` under the
`unsigned` counter `i`, with `fuel` iterations still allowed.  Releasing a pointer whose
object is not in the world has no defined result. -/
def Scene.destroyShapes (shapes : List Nat) : Nat → World → Nat → Option World
  | 0, w, i => if i < shapes.length then none else some w
  | fuel + 1, w, i =>
    if i < shapes.length then
      match shapes[i]? with
      | none => none
      | some p =>
        match w.shapeAt p with
        | none => none
        | some _ => Scene.destroyShapes shapes fuel (w.setShape p none) ((i + 1) % UNSIGNED_MOD)
    else some w

/-- The mode loop of Scene::destroy (lines 237-239): `delete` of every mode of the map. -/
def Scene.destroyModes : List (MODES × Nat) → World → Option World
  | [], w => some w
  | kv :: rest, w =>
    match w.modeAt kv.2 with
    | none => none
    | some _ => Scene.destroyModes rest (w.setMode kv.2 none)

/-- Scene::destroy (lines 229-244): releases the pick buffer, every shape of the registry
and every mode of the map, then clears the three containers.  The shape loop is allowed
`shapes.size()` iterations, after which it has ended or never ends. -/
def Scene.destroy (w : World) (a : Nat) : Option World :=
  match w.sceneAt a with
  | none => none
  | some s =>
    match Scene.destroyShapes s.shapes s.shapes.length w 0 with
    | none => none
    | some w1 =>
      match Scene.destroyModes s.modes w1 with
      | none => none
      | some w2 =>
        some (w2.setScene a
          (some { s with pickBuffer := [], shapes := [], selected := [], modes := [] }))

/-- Scene::operator= (lines 55-62). -/
def Scene.assign (rs : RenderSystem) (w : World) (a r : Nat) : Option World :=
  if a ≠ r then
    match Scene.destroy w a with
    | none => none
    | some w1 => Scene.copy rs w1 a r
  else
    match w.sceneAt a with
    | none => none
    | some _ => some w

/-- Scene::resizePickBuffer (lines 246-261).  `bufferSize << 1` is computed on an
`unsigned`; the copy loop writes `newArr[i]` for every `i < bufferSize`, so when the new
array is shorter than the old one (the shift wrapped) it writes past the end of the new
array and has no defined result. -/
def Scene.resizePickBuffer (w : World) (a : Nat) : Option World :=
  match w.sceneAt a with
  | none => none
  | some s =>
    let newSize := (s.bufferSize <<< 1) % UNSIGNED_MOD
    if s.bufferSize ≤ newSize then
      some (w.setScene a (some { s with pickBuffer := s.pickBuffer, bufferSize := newSize }))
    else none

/-- Scene::updateViewport (lines 129-132). -/
def Scene.updateViewport (w : World) (s : Scene) : Scene :=
  { s with viewport := w.glViewport }

/-- Scene::windowToGL (lines 166-177): un-projects the window position and inverts y. -/
def Scene.windowToGL (rs : RenderSystem) (s : Scene) (winX winY : Int) : Coord × Coord :=
  let r := rs.gluUnProject winX winY s.viewport
  (r.1, r.2 * (-1))

/-- The names loaded by a list of `pick` calls, each with the shape drawn under it. -/
def armedShapes (w : World) (calls : List (Nat × Nat)) : List (Nat × Shape) :=
  calls.filterMap (fun c => (w.shapeAt c.2).map (fun sh => (c.1, sh)))

/-- Scene::pickScene (lines 134-164): one selection pass at the current capacity; the
`GLint` returned by `glRenderMode(GL_RENDER)` is stored in an `unsigned` and returned. -/
def Scene.pickScene (rs : RenderSystem) (w : World) (a : Nat) (x y : Int) :
    Option (Nat × World) :=
  match w.sceneAt a with
  | none => none
  | some s0 =>
    let s := Scene.updateViewport w s0
    match s.currentMode with
    | none => none
    | some p =>
      match w.modeAt p with
      | none => none
      | some m =>
        match Mode.pickLogic w m with
        | none => none
        | some calls =>
          let armed := armedShapes w calls
          let hits := toUnsigned (rs.glRenderMode s.bufferSize armed x y s.viewport)
          let cells := (rs.hitRecords s.bufferSize armed x y s.viewport).take s.bufferSize
          some (hits, w.setScene a (some { s with pickBuffer := cells }))

/-- Scene::addShape (lines 77-100). -/
def Scene.addShape (rs : RenderSystem) (w : World) (a : Nat) (shape : SHAPES)
    (xW yW : Int) : Option World :=
  match w.sceneAt a with
  | none => none
  | some s0 =>
    let s := Scene.updateViewport w s0
    let xy := Scene.windowToGL rs s xW yW
    match Scene.pickScene rs (w.setScene a (some s)) a xW (s.viewport.height - yW) with
    | none => none
    | some (hits, w1) =>
      if hits > 0 then some w1
      else
        match shape with
        | SHAPES.CIRCLE =>
          let r := w1.newShape (Circle.new rs xy.1 xy.2 defaultRadius)
          match r.2.sceneAt a with
          | none => none
          | some s1 => some (r.2.setScene a (some { s1 with shapes := s1.shapes ++ [r.1] }))
        | _ => some w1

/-- Scene::registerClick (lines 102-109). -/
def Scene.registerClick (rs : RenderSystem) (w : World) (a : Nat) (xW yW : Int) :
    Option World :=
  match w.sceneAt a with
  | none => none
  | some s0 =>
    let s := Scene.updateViewport w s0
    let xy := Scene.windowToGL rs s xW yW
    match Scene.pickScene rs (w.setScene a (some s)) a xW (s.viewport.height - yW) with
    | none => none
    | some (hits, w1) =>
      match w1.sceneAt a with
      | none => none
      | some s1 =>
        match s1.currentMode with
        | none => none
        | some p => Mode.handleClick rs w1 p xy.1 xy.2 hits s1.pickBuffer

/-- The state before any object exists. -/
def World.empty : World :=
  { next := 0, shapeAt := fun _ => none, modeAt := fun _ => none, sceneAt := fun _ => none,
    glViewport := ⟨0, 0, 0, 0⟩ }

/-- Repeated calls `addShape(CIRCLE, x, y)` on the scene at `a`, one per window position. -/
def Scene.addCircles (rs : RenderSystem) (w : World) (a : Nat) : List (Int × Int) → Option World
  | [] => some w
  | c :: rest =>
    match Scene.addShape rs w a SHAPES.CIRCLE c.1 c.2 with
    | none => none
    | some w1 => Scene.addCircles rs w1 a rest

/-- Whether each call of the sequence finds nothing at its position: the hit test it runs
reports 0 hits in the state the earlier calls left. -/
def Scene.allMiss (rs : RenderSystem) (w : World) (a : Nat) : List (Int × Int) → Bool
  | [] => true
  | c :: rest =>
    decide ((Scene.pickScene rs w a c.1 (w.glViewport.height - c.2)).map Prod.fst = some 0) &&
    match Scene.addShape rs w a SHAPES.CIRCLE c.1 c.2 with
    | none => false
    | some w1 => Scene.allMiss rs w1 a rest

/-- A render system in which every selection pass ends with the same count, the pass
writes no records, and un-projection is the identity. -/
def constRender (count : Int) : RenderSystem :=
  { glRenderMode := fun _ _ _ _ _ => count
    hitRecords := fun _ _ _ _ _ => []
    gluUnProject := fun x y _ => (x, y)
    initColor := ⟨0, 0, 0, 0⟩
    initHighlight := ⟨0, 0, 0, 0⟩
    struck := fun _ buf => buf.getD 3 0
    edgeModeCopy := fun m => m
    edgeHandleClick := fun w _ _ _ _ _ => some w }

/-- The state after `Scene scene;` in an empty program: the scene object is at address 0,
its node-creation mode at 1 and its edge-creation mode at 2. -/
def oneScene : World := (Scene.new World.empty).2

/-- A scene with a mixed registry: the scene of `oneScene` after a selected circle (at
address 3), a line (at 4) and an unselected circle (at 5) were put into its registry. -/
def mixedWorld : World :=
  let c1 : Shape := { Circle.new (constRender 0) 1 1 defaultRadius with selected := true }
  let ln : Shape := { Circle.new (constRender 0) 2 2 0 with type := SHAPES.LINE }
  let c2 : Shape := Circle.new (constRender 0) 5 5 defaultRadius
  let w3 := (((oneScene.newShape c1).2.newShape ln).2.newShape c2).2
  w3.setScene 0 (some { (oneScene.sceneAt 0).getD Scene.raw with
    shapes := [3, 4, 5], selected := [3] })

/-- Whether the pointer refers to a live shape whose `isSelected()` is true. -/
def isSelectedAt (w : World) (p : Nat) : Bool :=
  match w.shapeAt p with
  | some sh => sh.isSelected
  | none => false

/-- The loop invariant of the shape loop of Scene::copy: the selected vector lists, in
registry order, the registry entries whose shape is selected; all entries are addresses
already handed out, without repetition. -/
def CopyInv (w : World) (shapes selected : List Nat) : Prop :=
  selected = shapes.filter (isSelectedAt w) ∧ (∀ q ∈ shapes, q < w.next) ∧ shapes.Nodup

/-- The state in which the body of the copy constructor starts when `mixedWorld`'s scene
is copied: the new scene object, at address 6, has default-constructed members. -/
def copyStart : World :=
  ({ mixedWorld with next := mixedWorld.next + 1 } : World).setScene mixedWorld.next
    (some Scene.raw)

/-- The kinds of the shapes in the registry of the scene at `a`, in registry order. -/
def registryKinds (w : World) (a : Nat) : Option (List (Option SHAPES)) :=
  (w.sceneAt a).map (fun s => s.shapes.map (fun p => (w.shapeAt p).map Shape.getType))

/-- The state after `Scene a; Scene b;`: scene objects at addresses 0 and 3, their modes
at 1, 2 and 4, 5. -/
def twoScenes : World := (Scene.new oneScene).2

/-- The operations of a program that builds scenes, runs pick queries, doubles pick
buffers and copies scenes. -/
inductive Op where
  | construct
  | pick (a : Nat) (x y : Int)
  | resize (a : Nat)
  | copyConstruct (r : Nat)
  | assign (a r : Nat)
  deriving DecidableEq

/-- The effect of one operation: `Scene::Scene()`, `pickScene` on the scene at `a`,
`resizePickBuffer` on the scene at `a`, `Scene(const Scene&)` from the scene at `r`, and
`a = r`. -/
def Op.apply (rs : RenderSystem) (w : World) : Op → Option World
  | Op.construct => some (Scene.new w).2
  | Op.pick a x y => (Scene.pickScene rs w a x y).map Prod.snd
  | Op.resize a => Scene.resizePickBuffer w a
  | Op.copyConstruct r => (Scene.copyConstruct rs w r).map Prod.snd
  | Op.assign a r => Scene.assign rs w a r

/-- A sequence of operations, from left to right. -/
def run (rs : RenderSystem) : World → List Op → Option World
  | w, [] => some w
  | w, op :: rest =>
    match op.apply rs w with
    | none => none
    | some w1 => run rs w1 rest

/-- The capacities 16 * 2^k that fit into an `unsigned`. -/
def CapForm (c : Nat) : Prop := ∃ k, k ≤ 27 ∧ c = 16 * 2 ^ k

/-- The invariant of the reachable states: every scene object lies below the allocator's
next address and has a capacity of the form `CapForm`. -/
def CapInv (w : World) : Prop :=
  ∀ a s, w.sceneAt a = some s → a < w.next ∧ CapForm s.bufferSize

/-- A scene whose registry does not fit the `unsigned` counters: 2^32 entries that point
to the line at address 4, followed by one entry that points to the circle at address 3. -/
def hugeScene : Scene :=
  { (oneScene.sceneAt 0).getD Scene.raw with
    shapes := List.replicate UNSIGNED_MOD 4 ++ [3], selected := [3] }

/-- The state `mixedWorld` with `hugeScene` as the scene at address 0. -/
def hugeWorld : World := mixedWorld.setScene 0 (some hugeScene)

/-- The state in which the body of the copy constructor starts when `hugeWorld`'s scene is
copied: the new scene object, at address 6, has default-constructed members. -/
def hugeStart : World :=
  ({ hugeWorld with next := hugeWorld.next + 1 } : World).setScene hugeWorld.next
    (some Scene.raw)

/-! ## Theorems -/

set_option maxRecDepth 100000 in
/-- The radius constant is the binary32 number that the literal `.1f` denotes: the
conversion of 1 / 10 to `float`; and it is a `float` value, so converting it again
leaves it unchanged. -/
theorem defaultRadius_is_float_of_tenth :
    toFloat (mkRat 1 10) = FloatVal.finite defaultRadius ∧
    toFloat defaultRadius = FloatVal.finite defaultRadius := by
  decide

theorem selectLogic_shapes (rs : RenderSystem) (w : World) (m : Mode) (hits : Nat)
    (buf : List Nat) (a : Nat) :
    ((Mode.selectLogic rs w m hits buf).sceneAt a).map Scene.shapes
      = (w.sceneAt a).map Scene.shapes := by
  unfold Mode.selectLogic
  split
  · rfl
  · split
    · rename_i a0 b0 _ _
      split
      · rename_i sa sb hsa hsb
        split
        · rfl
        · split
          · rfl
          · simp only
            split <;>
            · simp only [World.setScene, World.setShape]
              by_cases hab : a = b0
              · subst hab; simp [hsb]
              · simp [hab]
      · rfl
    · rfl

theorem handleClick_miss (rs : RenderSystem) (w : World) (m : Mode) (a : Nat) (s : Scene)
    (x y : Coord) (buf : List Nat)
    (hm : m.getShapesVector = some a) (hs : w.sceneAt a = some s) :
    NodeCreationMode.handleClick rs w m x y 0 buf
      = some ((w.newShape (Circle.new rs x y defaultRadius)).2.setScene a
          (some { s with shapes := s.shapes ++ [w.next] })) := by
  simp only [NodeCreationMode.handleClick, hm, hs]
  simp [NodeCreationMode.selectLogic, Mode.selectLogic]
  rfl

theorem handleClick_hit (rs : RenderSystem) (w : World) (m : Mode) (a : Nat) (s : Scene)
    (x y : Coord) (h : Nat) (buf : List Nat)
    (hm : m.getShapesVector = some a) (hs : w.sceneAt a = some s) (hh : 1 ≤ h) :
    NodeCreationMode.handleClick rs w m x y h buf = some (Mode.selectLogic rs w m h buf) := by
  simp only [NodeCreationMode.handleClick, hm, hs]
  have : ¬ h < 1 := by omega
  simp [this, NodeCreationMode.selectLogic]

/-- C4 (amended). NodeCreationMode::handleClick on a mode whose registry pointer refers
to a live scene: with 0 hits exactly one new CIRCLE is appended to the end of the
registry (earlier entries unchanged); its radius is the value of the literal `.1f`,
13421773 / 2^27, and its position is (x, y) converted from `double` to `float`; with 1
or more hits the registry is left as it was. -/
theorem C4_handleClick_appends_on_miss (rs : RenderSystem) (w : World) (m : Mode)
    (a : Nat) (s : Scene) (x y : Coord) (h : Nat) (buf : List Nat)
    (hm : m.getShapesVector = some a) (hs : w.sceneAt a = some s) :
    ∃ w1 s1, NodeCreationMode.handleClick rs w m x y h buf = some w1 ∧
      w1.sceneAt a = some s1 ∧
      (h = 0 → s1.shapes = s.shapes ++ [w.next] ∧
        ∃ c, w1.shapeAt w.next = some c ∧ c.getType = SHAPES.CIRCLE ∧
          c.radius = mkRat 13421773 134217728 ∧
          c.xCoord = toFloat x ∧ c.yCoord = toFloat y) ∧
      (1 ≤ h → s1.shapes = s.shapes) := by
  by_cases h0 : h = 0
  · subst h0
    refine ⟨_, { s with shapes := s.shapes ++ [w.next] },
      handleClick_miss rs w m a s x y buf hm hs, ?_, ?_, ?_⟩
    · simp [World.setScene]
    · intro _
      refine ⟨rfl, Circle.new rs x y defaultRadius, ?_, rfl, rfl, rfl, rfl⟩
      simp [World.setScene, World.newShape, World.setShape]
    · intro h1; omega
  · have hsel := selectLogic_shapes rs w m h buf a
    rw [hs] at hsel
    cases hw : (Mode.selectLogic rs w m h buf).sceneAt a with
    | none => rw [hw] at hsel; simp at hsel
    | some s1 =>
      rw [hw] at hsel
      refine ⟨_, s1, handleClick_hit rs w m a s x y h buf hm hs (by omega), hw, ?_, ?_⟩
      · intro h1; exact absurd h1 h0
      · intro _; simpa using hsel

/-- Witness for C4: a click with 0 hits on the node-creation mode of a new scene, whose
registry is empty, makes the registry the one-element list holding the new circle. -/
theorem C4_handleClick_appends_on_miss_witness :
    ∃ w1 s1, NodeCreationMode.handleClick (constRender 0) oneScene
        (NodeCreationMode.new (some 0) (some 0)) 50 50 0 [] = some w1 ∧
      w1.sceneAt 0 = some s1 ∧
      (0 = 0 → s1.shapes = ((oneScene.sceneAt 0).getD Scene.raw).shapes ++ [oneScene.next] ∧
        ∃ c, w1.shapeAt oneScene.next = some c ∧ c.getType = SHAPES.CIRCLE ∧
          c.radius = mkRat 13421773 134217728 ∧
          c.xCoord = toFloat 50 ∧ c.yCoord = toFloat 50) ∧
      (1 ≤ 0 → s1.shapes = ((oneScene.sceneAt 0).getD Scene.raw).shapes) :=
  C4_handleClick_appends_on_miss (constRender 0) oneScene
    (NodeCreationMode.new (some 0) (some 0)) 0 ((oneScene.sceneAt 0).getD Scene.raw)
    50 50 0 [] rfl (by decide)

set_option maxRecDepth 100000 in
/-- Counterexample to C4 as stated: a click with 0 hits at scene coordinates
(16777217, 50) on the node-creation mode of a new scene creates a circle whose stored x
coordinate is 16777216, not 16777217, and whose radius is 13421773 / 2^27, not 1 / 10. -/
theorem C4_counterexample_float_position_and_radius :
    ((NodeCreationMode.handleClick (constRender 0) oneScene
        (NodeCreationMode.new (some 0) (some 0)) 16777217 50 0 []).bind
      (fun w => w.shapeAt 3)).map Shape.xCoord = some (FloatVal.finite 16777216) ∧
    FloatVal.finite 16777216 ≠ FloatVal.finite 16777217 ∧
    ((NodeCreationMode.handleClick (constRender 0) oneScene
        (NodeCreationMode.new (some 0) (some 0)) 16777217 50 0 []).bind
      (fun w => w.shapeAt 3)).map Shape.radius = some (mkRat 13421773 134217728) ∧
    mkRat 13421773 134217728 ≠ (1 / 10 : Rat) := by
  refine ⟨by decide, by decide, by decide, ?_⟩
  rw [Rat.mkRat_eq_div]
  norm_num

theorem setScene_setScene (w : World) (a : Nat) (u v : Option Scene) :
    (w.setScene a u).setScene a v = w.setScene a v := by
  simp only [World.setScene]
  congr 1
  funext b
  by_cases h : b = a <;> simp [h]

theorem pickLoop_setScene (w : World) (a : Nat) (v : Option Scene) (l : List Nat) :
    ∀ i, NodeCreationMode.pickLoop (w.setScene a v) l i = NodeCreationMode.pickLoop w l i := by
  induction l with
  | nil => intro i; rfl
  | cons p rest ih =>
    intro i
    simp only [NodeCreationMode.pickLoop, ih]
    rfl

theorem pickLogic_setScene (w : World) (a : Nat) (s s1 : Scene) (m : Mode)
    (hs : w.sceneAt a = some s) (hsh : s1.shapes = s.shapes) :
    Mode.pickLogic (w.setScene a (some s1)) m = Mode.pickLogic w m := by
  have key : NodeCreationMode.pickLogic (w.setScene a (some s1)) m
      = NodeCreationMode.pickLogic w m := by
    unfold NodeCreationMode.pickLogic
    cases hm : m.getShapesVector with
    | none => rfl
    | some b =>
      simp only
      by_cases hb : b = a
      · subst hb
        simp only [World.setScene, if_true, hs, hsh]
        exact pickLoop_setScene w b (some s1) s.shapes 0
      · have : (w.setScene a (some s1)).sceneAt b = w.sceneAt b := by
          simp [World.setScene, hb]
        rw [this]
        cases w.sceneAt b with
        | none => rfl
        | some sb => exact pickLoop_setScene w a (some s1) sb.shapes 0
  unfold Mode.pickLogic EdgeCreationMode.pickLogic
  cases m.getMode <;> exact key

theorem pickScene_updateViewport (rs : RenderSystem) (w : World) (a : Nat) (s : Scene)
    (x y : Int) (hs : w.sceneAt a = some s) :
    Scene.pickScene rs (w.setScene a (some (Scene.updateViewport w s))) a x y
      = Scene.pickScene rs w a x y := by
  have hpl : ∀ m, Mode.pickLogic (w.setScene a (some (Scene.updateViewport w s))) m
      = Mode.pickLogic w m := fun m => pickLogic_setScene w a s _ m hs rfl
  unfold Scene.pickScene
  simp only [World.setScene, if_true, hs, Scene.updateViewport]
  cases hc : s.currentMode with
  | none => rfl
  | some p =>
    simp only
    cases w.modeAt p with
    | none => rfl
    | some m =>
      simp only
      have h2 := hpl m
      simp only [World.setScene, Scene.updateViewport, hc] at h2
      rw [h2]
      cases Mode.pickLogic w m with
      | none => rfl
      | some calls =>
        simp only [armedShapes]
        congr 3
        funext b
        by_cases h : b = a <;> simp [h]

/-- What a completed call of Scene::pickScene did: one selection pass at the current
capacity, whose count is returned as an `unsigned`; of the scene only the viewport and
the pick buffer cells change. -/
theorem pickScene_result (rs : RenderSystem) (w : World) (a : Nat) (x y : Int) (hits : Nat)
    (w1 : World) (h : Scene.pickScene rs w a x y = some (hits, w1)) :
    ∃ s p m calls, w.sceneAt a = some s ∧ s.currentMode = some p ∧ w.modeAt p = some m ∧
      Mode.pickLogic w m = some calls ∧
      hits = toUnsigned (rs.glRenderMode s.bufferSize (armedShapes w calls) x y w.glViewport) ∧
      w1 = w.setScene a (some { s with
        viewport := w.glViewport
        pickBuffer := (rs.hitRecords s.bufferSize (armedShapes w calls) x y
          w.glViewport).take s.bufferSize }) := by
  unfold Scene.pickScene at h
  cases hs : w.sceneAt a with
  | none => simp [hs] at h
  | some s =>
    simp only [hs, Scene.updateViewport] at h
    cases hc : s.currentMode with
    | none => simp [hc] at h
    | some p =>
      simp only [hc] at h
      cases hm : w.modeAt p with
      | none => simp [hm] at h
      | some m =>
        simp only [hm] at h
        cases hp : Mode.pickLogic w m with
        | none => simp [hp] at h
        | some calls =>
          simp only [hp, Option.some.injEq, Prod.mk.injEq] at h
          exact ⟨s, p, m, calls, rfl, hc, hm, hp, h.1.symm, by rw [hc]; exact h.2.symm⟩

theorem pickScene_of_count (rs : RenderSystem) (w : World) (a : Nat) (x y : Int) (hits : Nat)
    (h : (Scene.pickScene rs w a x y).map Prod.fst = some hits) :
    ∃ w1, Scene.pickScene rs w a x y = some (hits, w1) := by
  cases hp : Scene.pickScene rs w a x y with
  | none => rw [hp] at h; simp at h
  | some r =>
    rw [hp] at h
    simp only [Option.map_some', Option.some.injEq] at h
    exact ⟨r.2, by rw [← h]⟩

/-- C3. Scene::addShape when the hit test at the position reports a count above 0:
nothing is created; the registry and the selected set of the scene, every shape object
and every other scene are as before the call. -/
theorem C3_addShape_suppressed_on_hit (rs : RenderSystem) (w : World) (a : Nat)
    (shape : SHAPES) (xW yW : Int) (hits : Nat)
    (hpick : (Scene.pickScene rs w a xW (w.glViewport.height - yW)).map Prod.fst = some hits)
    (hhit : 0 < hits) :
    ∃ w2, Scene.addShape rs w a shape xW yW = some w2 ∧
      (w2.sceneAt a).map Scene.shapes = (w.sceneAt a).map Scene.shapes ∧
      (w2.sceneAt a).map Scene.selected = (w.sceneAt a).map Scene.selected ∧
      w2.shapeAt = w.shapeAt ∧ w2.next = w.next ∧
      ∀ b, b ≠ a → w2.sceneAt b = w.sceneAt b := by
  obtain ⟨w1, hpick1⟩ := pickScene_of_count rs w a _ _ hits hpick
  obtain ⟨s, p, m, calls, hs, -, -, -, -, hw1⟩ := pickScene_result rs w a _ _ hits w1 hpick1
  have hadd : Scene.addShape rs w a shape xW yW = some w1 := by
    unfold Scene.addShape
    simp only [hs]
    have := pickScene_updateViewport rs w a s xW (w.glViewport.height - yW) hs
    simp only [Scene.updateViewport] at this ⊢
    rw [this, hpick1]
    simp [hhit]
  refine ⟨w1, hadd, ?_, ?_, ?_, ?_, ?_⟩
  · rw [hw1, hs]; simp [World.setScene]
  · rw [hw1, hs]; simp [World.setScene]
  · rw [hw1]; rfl
  · rw [hw1]; rfl
  · intro b hb; rw [hw1]; simp [World.setScene, hb]

/-- Witness for C3: on a new scene, with a hit test that reports 1 hit, `addShape` for a
CIRCLE creates nothing. -/
theorem C3_addShape_suppressed_on_hit_witness :
    ∃ w2, Scene.addShape (constRender 1) oneScene 0 SHAPES.CIRCLE 5 5 = some w2 ∧
      (w2.sceneAt 0).map Scene.shapes = (oneScene.sceneAt 0).map Scene.shapes ∧
      (w2.sceneAt 0).map Scene.selected = (oneScene.sceneAt 0).map Scene.selected ∧
      w2.shapeAt = oneScene.shapeAt ∧ w2.next = oneScene.next ∧
      ∀ b, b ≠ 0 → w2.sceneAt b = oneScene.sceneAt b :=
  C3_addShape_suppressed_on_hit (constRender 1) oneScene 0 SHAPES.CIRCLE 5 5 1
    (by decide) (by decide)

theorem addShape_circle_miss (rs : RenderSystem) (w : World) (a : Nat) (s : Scene)
    (xW yW : Int) (hs : w.sceneAt a = some s)
    (hpick : (Scene.pickScene rs w a xW (w.glViewport.height - yW)).map Prod.fst = some 0) :
    ∃ w2 s2, Scene.addShape rs w a SHAPES.CIRCLE xW yW = some w2 ∧
      w2.sceneAt a = some s2 ∧ s2.shapes = s.shapes ++ [w.next] ∧
      s2.selected = s.selected ∧
      w2.shapeAt w.next = some (Circle.new rs
        (Scene.windowToGL rs (Scene.updateViewport w s) xW yW).1
        (Scene.windowToGL rs (Scene.updateViewport w s) xW yW).2 defaultRadius) := by
  obtain ⟨w1, hpick1⟩ := pickScene_of_count rs w a _ _ 0 hpick
  obtain ⟨s0, p, m, calls, hs0, -, -, -, -, hw1⟩ := pickScene_result rs w a _ _ 0 w1 hpick1
  rw [hs] at hs0
  cases hs0
  have hpv := pickScene_updateViewport rs w a s xW (w.glViewport.height - yW) hs
  have hnext : w1.next = w.next := by rw [hw1]; rfl
  have h1 : w1.sceneAt a = some { s with
      viewport := w.glViewport
      pickBuffer := (rs.hitRecords s.bufferSize (armedShapes w calls) xW
        (w.glViewport.height - yW) w.glViewport).take s.bufferSize } := by
    rw [hw1]; simp [World.setScene]
  have hadd : Scene.addShape rs w a SHAPES.CIRCLE xW yW
      = some ((w1.newShape (Circle.new rs
          (Scene.windowToGL rs (Scene.updateViewport w s) xW yW).1
          (Scene.windowToGL rs (Scene.updateViewport w s) xW yW).2 defaultRadius)).2.setScene a
        (some { s with
          viewport := w.glViewport
          pickBuffer := (rs.hitRecords s.bufferSize (armedShapes w calls) xW
            (w.glViewport.height - yW) w.glViewport).take s.bufferSize
          shapes := s.shapes ++ [w.next] })) := by
    unfold Scene.addShape
    simp only [hs]
    simp only [Scene.updateViewport] at hpv ⊢
    rw [hpv, hpick1]
    simp only [gt_iff_lt, lt_self_iff_false, if_false]
    have h2 : (w1.newShape (Circle.new rs
        (Scene.windowToGL rs { s with viewport := w.glViewport } xW yW).1
        (Scene.windowToGL rs { s with viewport := w.glViewport } xW yW).2
        defaultRadius)).2.sceneAt a = w1.sceneAt a := rfl
    rw [h2, h1]
    simp only [World.newShape, hnext]
  refine ⟨_, { s with
      viewport := w.glViewport
      pickBuffer := (rs.hitRecords s.bufferSize (armedShapes w calls) xW
        (w.glViewport.height - yW) w.glViewport).take s.bufferSize
      shapes := s.shapes ++ [w.next] }, hadd, ?_, rfl, rfl, ?_⟩
  · simp [World.setScene]
  · simp [World.setScene, World.newShape, World.setShape, hnext]

theorem addShape_other_miss (rs : RenderSystem) (w : World) (a : Nat) (s : Scene)
    (shape : SHAPES) (xW yW : Int) (hs : w.sceneAt a = some s)
    (hkind : shape ≠ SHAPES.CIRCLE)
    (hpick : (Scene.pickScene rs w a xW (w.glViewport.height - yW)).map Prod.fst = some 0) :
    ∃ w2 s2, Scene.addShape rs w a shape xW yW = some w2 ∧
      w2.sceneAt a = some s2 ∧ s2.shapes = s.shapes ∧ s2.selected = s.selected ∧
      w2.shapeAt = w.shapeAt := by
  obtain ⟨w1, hpick1⟩ := pickScene_of_count rs w a _ _ 0 hpick
  obtain ⟨s0, p, m, calls, hs0, -, -, -, -, hw1⟩ := pickScene_result rs w a _ _ 0 w1 hpick1
  rw [hs] at hs0
  cases hs0
  have hpv := pickScene_updateViewport rs w a s xW (w.glViewport.height - yW) hs
  have hadd : Scene.addShape rs w a shape xW yW = some w1 := by
    unfold Scene.addShape
    simp only [hs]
    simp only [Scene.updateViewport] at hpv ⊢
    rw [hpv, hpick1]
    cases shape with
    | CIRCLE => exact absurd rfl hkind
    | LINE => simp
  refine ⟨w1, { s with
      viewport := w.glViewport
      pickBuffer := (rs.hitRecords s.bufferSize (armedShapes w calls) xW
        (w.glViewport.height - yW) w.glViewport).take s.bufferSize }, hadd, ?_, rfl, rfl, ?_⟩
  · rw [hw1]; simp [World.setScene]
  · rw [hw1]; rfl

theorem addCircles_length (rs : RenderSystem) (a : Nat) (clicks : List (Int × Int)) :
    ∀ (w : World) (s : Scene), w.sceneAt a = some s → Scene.allMiss rs w a clicks = true →
      ∃ w2 s2, Scene.addCircles rs w a clicks = some w2 ∧ w2.sceneAt a = some s2 ∧
        s2.shapes.length = s.shapes.length + clicks.length := by
  induction clicks with
  | nil => intro w s hs _; exact ⟨w, s, rfl, hs, rfl⟩
  | cons c rest ih =>
    intro w s hs hall
    simp only [Scene.allMiss, Bool.and_eq_true, decide_eq_true_eq] at hall
    obtain ⟨w1, s1, hadd, hs1, hsh, -, -⟩ := addShape_circle_miss rs w a s c.1 c.2 hs hall.1
    have hrest := hall.2
    rw [hadd] at hrest
    obtain ⟨w2, s2, h2, hs2, hlen⟩ := ih w1 s1 hs1 hrest
    refine ⟨w2, s2, ?_, hs2, ?_⟩
    · simp only [Scene.addCircles, hadd, h2]
    · rw [hlen, hsh]; simp; omega

/-- C2 (amended). Scene::addShape at a position whose hit test reports 0 hits: for kind
CIRCLE exactly one new CIRCLE is appended to the end of the registry, its radius the
value of the literal `.1f` (13421773 / 2^27) and its position the converted scene
coordinates, converted from `double` to `float`; for any other kind nothing is
appended; hence after n calls for a CIRCLE that each hit nothing the registry has grown
by n. -/
theorem C2_addShape_appends_circle_on_miss (rs : RenderSystem) (w : World) (a : Nat)
    (s : Scene) (hs : w.sceneAt a = some s) :
    (∀ xW yW : Int,
      (Scene.pickScene rs w a xW (w.glViewport.height - yW)).map Prod.fst = some 0 →
      ∃ w2 s2 c, Scene.addShape rs w a SHAPES.CIRCLE xW yW = some w2 ∧
        w2.sceneAt a = some s2 ∧ s2.shapes = s.shapes ++ [w.next] ∧
        w2.shapeAt w.next = some c ∧ c.getType = SHAPES.CIRCLE ∧
        c.radius = mkRat 13421773 134217728 ∧
        c.xCoord = toFloat (Scene.windowToGL rs (Scene.updateViewport w s) xW yW).1 ∧
        c.yCoord = toFloat (Scene.windowToGL rs (Scene.updateViewport w s) xW yW).2) ∧
    (∀ (shape : SHAPES) (xW yW : Int), shape ≠ SHAPES.CIRCLE →
      (Scene.pickScene rs w a xW (w.glViewport.height - yW)).map Prod.fst = some 0 →
      ∃ w2 s2, Scene.addShape rs w a shape xW yW = some w2 ∧
        w2.sceneAt a = some s2 ∧ s2.shapes = s.shapes) ∧
    (∀ clicks : List (Int × Int), Scene.allMiss rs w a clicks = true →
      ∃ w2 s2, Scene.addCircles rs w a clicks = some w2 ∧ w2.sceneAt a = some s2 ∧
        s2.shapes.length = s.shapes.length + clicks.length) := by
  refine ⟨?_, ?_, ?_⟩
  · intro xW yW hpick
    obtain ⟨w2, s2, h1, h2, h3, -, h5⟩ := addShape_circle_miss rs w a s xW yW hs hpick
    exact ⟨w2, s2, _, h1, h2, h3, h5, rfl, rfl, rfl, rfl⟩
  · intro shape xW yW hk hpick
    obtain ⟨w2, s2, h1, h2, h3, -, -⟩ := addShape_other_miss rs w a s shape xW yW hs hk hpick
    exact ⟨w2, s2, h1, h2, h3⟩
  · intro clicks hall
    exact addCircles_length rs a clicks w s hs hall

/-- Witness for C2: three CIRCLE calls on a new scene in a render system that never
reports a hit. -/
theorem C2_addShape_appends_circle_on_miss_witness :
    ∃ w2 s2, Scene.addCircles (constRender 0) oneScene 0 [(1, 1), (40, 2), (7, 90)] = some w2 ∧
      w2.sceneAt 0 = some s2 ∧
      s2.shapes.length = ((oneScene.sceneAt 0).getD Scene.raw).shapes.length + 3 :=
  (C2_addShape_appends_circle_on_miss (constRender 0) oneScene 0
    ((oneScene.sceneAt 0).getD Scene.raw) (by decide)).2.2
      [(1, 1), (40, 2), (7, 90)] (by decide)

set_option maxRecDepth 100000 in
/-- Counterexample to C2 as stated: on a new scene, with a hit test that reports 0 hits,
`addShape(LINE, 5, 5)` leaves the registry empty; and `addShape(CIRCLE, 16777217, 5)`,
whose converted x coordinate is 16777217, creates a circle whose stored x coordinate is
16777216 and whose radius is 13421773 / 2^27, not 1 / 10. -/
theorem C2_counterexample_line_not_added :
    (Scene.pickScene (constRender 0) oneScene 0 5 (oneScene.glViewport.height - 5)).map
        Prod.fst = some 0 ∧
      ((Scene.addShape (constRender 0) oneScene 0 SHAPES.LINE 5 5).bind
        (fun w => w.sceneAt 0)).map Scene.shapes = some [] ∧
      (Scene.windowToGL (constRender 0) (Scene.updateViewport oneScene Scene.raw)
        16777217 5).1 = 16777217 ∧
      ((Scene.addShape (constRender 0) oneScene 0 SHAPES.CIRCLE 16777217 5).bind
        (fun w => w.shapeAt 3)).map Shape.xCoord = some (FloatVal.finite 16777216) ∧
      FloatVal.finite 16777216 ≠ FloatVal.finite 16777217 ∧
      ((Scene.addShape (constRender 0) oneScene 0 SHAPES.CIRCLE 16777217 5).bind
        (fun w => w.shapeAt 3)).map Shape.radius = some (mkRat 13421773 134217728) ∧
      mkRat 13421773 134217728 ≠ (1 / 10 : Rat) := by
  refine ⟨by decide, by decide, by decide, by decide, by decide, by decide, ?_⟩
  rw [Rat.mkRat_eq_div]
  norm_num

theorem registerClick_passes_count (rs : RenderSystem) (w : World) (a : Nat) (xW yW : Int)
    (s : Scene) (p hits : Nat) (w1 : World)
    (hs : w.sceneAt a = some s) (hc : s.currentMode = some p)
    (hp : Scene.pickScene rs w a xW (w.glViewport.height - yW) = some (hits, w1)) :
    ∃ buf, Scene.registerClick rs w a xW yW
      = Mode.handleClick rs w1 p (Scene.windowToGL rs (Scene.updateViewport w s) xW yW).1
          (Scene.windowToGL rs (Scene.updateViewport w s) xW yW).2 hits buf := by
  obtain ⟨s0, p0, m, calls, hs0, -, -, -, -, hw1⟩ := pickScene_result rs w a _ _ hits w1 hp
  rw [hs] at hs0
  cases hs0
  have hpv := pickScene_updateViewport rs w a s xW (w.glViewport.height - yW) hs
  have h1 : w1.sceneAt a = some { s with
      viewport := w.glViewport
      pickBuffer := (rs.hitRecords s.bufferSize (armedShapes w calls) xW
        (w.glViewport.height - yW) w.glViewport).take s.bufferSize } := by
    rw [hw1]; simp [World.setScene]
  refine ⟨(rs.hitRecords s.bufferSize (armedShapes w calls) xW
        (w.glViewport.height - yW) w.glViewport).take s.bufferSize, ?_⟩
  unfold Scene.registerClick
  simp only [hs]
  simp only [Scene.updateViewport] at hpv ⊢
  rw [hpv, hp]
  simp only [h1, hc]

/-- C1 (evaluation at the failing input). On a new scene (capacity 16) with a render system
whose selection pass ends with the buffer-too-small signal -1: Scene::pickScene returns
4294967295, the signal stored in an `unsigned`, and leaves the capacity at 16;
`addShape` tests that value and creates nothing; `registerClick` hands that value to
the active mode's `handleClick` as the hit count. -/
theorem C1_overflow_signal_is_returned_as_count :
    (Scene.pickScene (constRender (-1)) oneScene 0 5 (oneScene.glViewport.height - 5)).map
        Prod.fst = some 4294967295 ∧
      ((Scene.pickScene (constRender (-1)) oneScene 0 5 (oneScene.glViewport.height - 5)).bind
        (fun r => r.2.sceneAt 0)).map Scene.bufferSize = some 16 ∧
      ((Scene.addShape (constRender (-1)) oneScene 0 SHAPES.CIRCLE 5 5).bind
        (fun w => w.sceneAt 0)).map Scene.shapes = some [] ∧
      ∃ w1 x y buf,
        Scene.pickScene (constRender (-1)) oneScene 0 5 (oneScene.glViewport.height - 5)
          = some (4294967295, w1) ∧
        Scene.registerClick (constRender (-1)) oneScene 0 5 5
          = Mode.handleClick (constRender (-1)) w1 1 x y 4294967295 buf := by
  refine ⟨by decide, by decide, by decide, ?_⟩
  obtain ⟨w1, h1⟩ := pickScene_of_count (constRender (-1)) oneScene 0 5
    (oneScene.glViewport.height - 5) 4294967295 (by decide)
  obtain ⟨buf, h2⟩ := registerClick_passes_count (constRender (-1)) oneScene 0 5 5
    ((oneScene.sceneAt 0).getD Scene.raw) 1 4294967295 w1 (by decide) (by decide) h1
  exact ⟨w1, _, _, buf, h1, h2⟩

theorem copyShapes_total (l : List Nat) (hlen : l.length < UNSIGNED_MOD) :
    ∀ (fuel : Nat) (w : World) (i : Nat) (shapes selected : List Nat),
      (∀ p ∈ l, (w.shapeAt p).isSome = true) → i ≤ l.length → l.length - i ≤ fuel →
      ∃ res, Scene.copyShapes l fuel w i shapes selected = some res := by
  intro fuel
  induction fuel with
  | zero =>
    intro w i shapes selected _ hi hf
    have : ¬ i < l.length := by omega
    exact ⟨(w, shapes, selected), by simp [Scene.copyShapes, this]⟩
  | succ fuel ih =>
    intro w i shapes selected hl hi hf
    unfold Scene.copyShapes
    by_cases hlt : i < l.length
    · simp only [hlt, if_true]
      have hget : l[i]? = some l[i] := List.getElem?_eq_getElem hlt
      have hmem : l[i] ∈ l := List.getElem_mem hlt
      obtain ⟨sh, hsh⟩ := Option.isSome_iff_exists.mp (hl _ hmem)
      have hmod : (i + 1) % UNSIGNED_MOD = i + 1 := Nat.mod_eq_of_lt (by omega)
      simp only [hget, hsh, hmod]
      cases hk : sh.getType with
      | CIRCLE =>
        simp only
        apply ih _ _ _ _ _ (by omega) (by omega)
        intro q hq
        simp only [World.newShape, World.setShape]
        by_cases hqn : q = w.next
        · simp [hqn]
        · simp [hqn, hl q hq]
      | LINE =>
        simp only
        exact ih _ _ _ _ hl (by omega) (by omega)
    · exact ⟨(w, shapes, selected), by simp [hlt]⟩

theorem copyShapes_never (l : List Nat) (hlen : UNSIGNED_MOD ≤ l.length) :
    ∀ (fuel : Nat) (w : World) (i : Nat) (shapes selected : List Nat),
      i < UNSIGNED_MOD → Scene.copyShapes l fuel w i shapes selected = none := by
  intro fuel
  induction fuel with
  | zero =>
    intro w i shapes selected hi
    have : i < l.length := by omega
    simp [Scene.copyShapes, this]
  | succ fuel ih =>
    intro w i shapes selected hi
    have hlt : i < l.length := by omega
    have hmod : (i + 1) % UNSIGNED_MOD < UNSIGNED_MOD := Nat.mod_lt _ (by decide)
    unfold Scene.copyShapes
    simp only [hlt, if_true]
    cases l[i]? with
    | none => rfl
    | some p =>
      simp only
      cases w.shapeAt p with
      | none => rfl
      | some sh =>
        simp only
        cases sh.getType with
        | CIRCLE => exact ih _ _ _ _ hmod
        | LINE => exact ih _ _ _ _ hmod

theorem copyShapes_frame (l : List Nat) :
    ∀ (fuel : Nat) (w : World) (i : Nat) (shapes selected : List Nat) (w1 : World)
      (sh1 sel1 : List Nat),
      Scene.copyShapes l fuel w i shapes selected = some (w1, sh1, sel1) →
      w1.sceneAt = w.sceneAt ∧ w1.modeAt = w.modeAt ∧ w.next ≤ w1.next := by
  intro fuel
  induction fuel with
  | zero =>
    intro w i shapes selected w1 sh1 sel1 h
    unfold Scene.copyShapes at h
    by_cases hlt : i < l.length
    · simp [hlt] at h
    · simp only [hlt, if_false, Option.some.injEq, Prod.mk.injEq] at h
      obtain ⟨rfl, -, -⟩ := h
      exact ⟨rfl, rfl, le_refl _⟩
  | succ fuel ih =>
    intro w i shapes selected w1 sh1 sel1 h
    unfold Scene.copyShapes at h
    by_cases hlt : i < l.length
    · simp only [hlt, if_true] at h
      cases hg : l[i]? with
      | none => simp [hg] at h
      | some p =>
        simp only [hg] at h
        cases hsh : w.shapeAt p with
        | none => simp [hsh] at h
        | some sh =>
          simp only [hsh] at h
          cases hk : sh.getType with
          | CIRCLE =>
            simp only [hk] at h
            obtain ⟨h1, h2, h3⟩ := ih _ _ _ _ _ _ _ h
            refine ⟨h1, h2, ?_⟩
            have : (w.newShape (Circle.clone sh)).2.next = w.next + 1 := rfl
            omega
          | LINE =>
            simp only [hk] at h
            exact ih _ _ _ _ _ _ _ h
    · simp only [hlt, if_false, Option.some.injEq, Prod.mk.injEq] at h
      obtain ⟨rfl, -, -⟩ := h
      exact ⟨rfl, rfl, le_refl _⟩

theorem copyInv_step (w : World) (shapes selected : List Nat) (sh : Shape)
    (hinv : CopyInv w shapes selected) :
    CopyInv (w.newShape (Circle.clone sh)).2 (shapes ++ [(w.newShape (Circle.clone sh)).1])
      (if (Circle.clone sh).isSelected then
        selected ++ [(w.newShape (Circle.clone sh)).1] else selected) := by
  obtain ⟨hsel, hlt, hnd⟩ := hinv
  have hold : ∀ q ∈ shapes, isSelectedAt (w.newShape (Circle.clone sh)).2 q
      = isSelectedAt w q := by
    intro q hq
    have hne : q ≠ w.next := Nat.ne_of_lt (hlt q hq)
    simp [isSelectedAt, World.newShape, World.setShape, hne]
  have hnew : isSelectedAt (w.newShape (Circle.clone sh)).2 w.next
      = (Circle.clone sh).isSelected := by
    simp [isSelectedAt, World.newShape, World.setShape]
  refine ⟨?_, ?_, ?_⟩
  · have hf : shapes.filter (isSelectedAt (w.newShape (Circle.clone sh)).2)
        = shapes.filter (isSelectedAt w) := List.filter_congr hold
    simp only [World.newShape] at hf hnew ⊢
    rw [List.filter_append, hf, ← hsel]
    by_cases hs : (Circle.clone sh).isSelected = true
    · simp [hs, List.filter_cons, hnew]
    · simp [hs, List.filter_cons, hnew]
  · intro q hq
    have : (w.newShape (Circle.clone sh)).2.next = w.next + 1 := rfl
    rw [this]
    rcases List.mem_append.mp hq with hq | hq
    · exact Nat.lt_succ_of_lt (hlt q hq)
    · simp only [World.newShape, List.mem_singleton] at hq
      omega
  · simp only [World.newShape]
    rw [List.nodup_append]
    refine ⟨hnd, List.nodup_singleton _, ?_⟩
    intro q hq hq2
    simp only [List.mem_singleton] at hq2
    exact absurd hq2 (Nat.ne_of_lt (hlt q hq))

theorem copyShapes_inv (l : List Nat) :
    ∀ (fuel : Nat) (w : World) (i : Nat) (shapes selected : List Nat) (w1 : World)
      (sh1 sel1 : List Nat),
      Scene.copyShapes l fuel w i shapes selected = some (w1, sh1, sel1) →
      CopyInv w shapes selected → CopyInv w1 sh1 sel1 := by
  intro fuel
  induction fuel with
  | zero =>
    intro w i shapes selected w1 sh1 sel1 h hinv
    unfold Scene.copyShapes at h
    by_cases hlt : i < l.length
    · simp [hlt] at h
    · simp only [hlt, if_false, Option.some.injEq, Prod.mk.injEq] at h
      obtain ⟨rfl, rfl, rfl⟩ := h
      exact hinv
  | succ fuel ih =>
    intro w i shapes selected w1 sh1 sel1 h hinv
    unfold Scene.copyShapes at h
    by_cases hlt : i < l.length
    · simp only [hlt, if_true] at h
      cases hg : l[i]? with
      | none => simp [hg] at h
      | some p =>
        simp only [hg] at h
        cases hsh : w.shapeAt p with
        | none => simp [hsh] at h
        | some sh =>
          simp only [hsh] at h
          cases hk : sh.getType with
          | LINE =>
            simp only [hk] at h
            exact ih _ _ _ _ _ _ _ h hinv
          | CIRCLE =>
            simp only [hk] at h
            exact ih _ _ _ _ _ _ _ h (copyInv_step w shapes selected sh hinv)
    · simp only [hlt, if_false, Option.some.injEq, Prod.mk.injEq] at h
      obtain ⟨rfl, rfl, rfl⟩ := h
      exact hinv

theorem copyModes_total (rs : RenderSystem) (l : List (MODES × Nat)) :
    ∀ (w : World) (modes : List (MODES × Nat)),
      (∀ kv ∈ l, (w.modeAt kv.2).isSome = true) →
      ∃ res, Scene.copyModes rs w l modes = some res := by
  induction l with
  | nil => intro w modes _; exact ⟨_, rfl⟩
  | cons kv rest ih =>
    intro w modes hl
    obtain ⟨k, v⟩ := kv
    obtain ⟨m, hm⟩ := Option.isSome_iff_exists.mp (hl (k, v) (List.mem_cons_self _ _))
    have hrest : ∀ q ∈ rest, (w.modeAt q.2).isSome = true :=
      fun q hq => hl q (List.mem_cons_of_mem _ hq)
    have hstep : ∀ (nm : Mode) (q : MODES × Nat), q ∈ rest →
        ((w.newMode nm).2.modeAt q.2).isSome = true := by
      intro nm q hq
      simp only [World.newMode, World.setMode]
      by_cases hqn : q.2 = w.next
      · simp [hqn]
      · simp [hqn, hrest q hq]
    unfold Scene.copyModes
    simp only at hm
    simp only [hm]
    cases hk : m.getMode with
    | NODECREATION => exact ih _ _ (hstep _)
    | EDGECREATION => exact ih _ _ (hstep _)

theorem copyModes_frame (rs : RenderSystem) (l : List (MODES × Nat)) :
    ∀ (w : World) (modes : List (MODES × Nat)) (w1 : World) (modes1 : List (MODES × Nat)),
      Scene.copyModes rs w l modes = some (w1, modes1) →
      w1.sceneAt = w.sceneAt ∧ w1.shapeAt = w.shapeAt ∧ w.next ≤ w1.next := by
  induction l with
  | nil =>
    intro w modes w1 modes1 h
    simp only [Scene.copyModes, Option.some.injEq, Prod.mk.injEq] at h
    obtain ⟨rfl, -⟩ := h
    exact ⟨rfl, rfl, le_refl _⟩
  | cons kv rest ih =>
    intro w modes w1 modes1 h
    obtain ⟨k, v⟩ := kv
    unfold Scene.copyModes at h
    cases hm : w.modeAt v with
    | none => simp [hm] at h
    | some m =>
      simp only [hm] at h
      cases hk : m.getMode with
      | NODECREATION =>
        simp only [hk] at h
        obtain ⟨h1, h2, h3⟩ := ih _ _ _ _ h
        refine ⟨h1, h2, ?_⟩
        have : (w.newMode (NodeCreationMode.copy m)).2.next = w.next + 1 := rfl
        omega
      | EDGECREATION =>
        simp only [hk] at h
        obtain ⟨h1, h2, h3⟩ := ih _ _ _ _ h
        refine ⟨h1, h2, ?_⟩
        have : (w.newMode (rs.edgeModeCopy m)).2.next = w.next + 1 := rfl
        omega


/-- C8 (amended). Scene::copy into a destination whose registry and selected set are
empty (the state in the copy constructor and after `destroy`), from a source with fewer
than 2^32 shapes whose shape and mode pointers are live: the call returns, and the
copy's selected set is exactly the list of the entries of the copy's own registry whose
`isSelected()` is true, in registry order, each once; every entry of it is in the
copy's registry. -/
theorem C8_copy_selected_is_filter_of_registry (rs : RenderSystem) (w : World) (a r : Nat)
    (this rhs : Scene)
    (hthis : w.sceneAt a = some this) (hrhs : w.sceneAt r = some rhs)
    (hsh : this.shapes = []) (hsel : this.selected = [])
    (hlen : rhs.shapes.length < UNSIGNED_MOD)
    (hlive : ∀ p ∈ rhs.shapes, (w.shapeAt p).isSome = true)
    (hmodes : ∀ kv ∈ rhs.modes, (w.modeAt kv.2).isSome = true) :
    ∃ w1 s1, Scene.copy rs w a r = some w1 ∧ w1.sceneAt a = some s1 ∧
      s1.selected = s1.shapes.filter (isSelectedAt w1) ∧
      s1.selected.Nodup ∧ ∀ p ∈ s1.selected, p ∈ s1.shapes := by
  obtain ⟨⟨w1, sh1, sel1⟩, hcs⟩ := copyShapes_total rhs.shapes hlen rhs.shapes.length w 0
    this.shapes this.selected hlive (Nat.zero_le _) (by omega)
  obtain ⟨hf1, hf2, -⟩ := copyShapes_frame _ _ _ _ _ _ _ _ _ hcs
  have hinv : CopyInv w1 sh1 sel1 := by
    apply copyShapes_inv _ _ _ _ _ _ _ _ _ hcs
    rw [hsh, hsel]
    exact ⟨rfl, fun q hq => absurd hq (List.not_mem_nil q), List.nodup_nil⟩
  obtain ⟨⟨w2, modes2⟩, hcm⟩ := copyModes_total rs rhs.modes w1 this.modes
    (by rw [hf2]; exact hmodes)
  obtain ⟨-, hg2, -⟩ := copyModes_frame _ _ _ _ _ _ hcm
  have hcopy : ∃ s1, Scene.copy rs w a r = some (w2.setScene a (some s1)) ∧
      s1.shapes = sh1 ∧ s1.selected = sel1 := by
    refine ⟨{ this with
        bufferSize := rhs.bufferSize
        pickBuffer := rhs.pickBuffer.take rhs.bufferSize
        shapes := sh1
        selected := sel1
        modes := modes2 }, ?_, rfl, rfl⟩
    unfold Scene.copy
    simp only [hthis, hrhs, hcs, hcm]
  obtain ⟨s1, hcopy, hs1, hs2⟩ := hcopy
  have hsame : isSelectedAt (w2.setScene a (some s1)) = isSelectedAt w1 := by
    funext q
    simp only [isSelectedAt, World.setScene, hg2]
  refine ⟨w2.setScene a (some s1), s1, hcopy, by simp [World.setScene], ?_, ?_, ?_⟩
  · rw [hsame, hs1, hs2]; exact hinv.1
  · rw [hs2, hinv.1]; exact hinv.2.2.filter _
  · intro p hp
    rw [hs2, hinv.1] at hp
    rw [hs1]
    exact (List.mem_filter.mp hp).1

/-- Witness for C8: copying the scene with registry (selected circle, line, unselected
circle) into a new scene object. -/
theorem C8_copy_selected_is_filter_of_registry_witness :
    ((Scene.copy (constRender 0) copyStart 6 0).bind (fun w => w.sceneAt 6)).map
        Scene.selected = some [7] ∧
      ∃ w1 s1, Scene.copy (constRender 0) copyStart 6 0 = some w1 ∧ w1.sceneAt 6 = some s1 ∧
        s1.selected = s1.shapes.filter (isSelectedAt w1) ∧
        s1.selected.Nodup ∧ ∀ p ∈ s1.selected, p ∈ s1.shapes :=
  ⟨by decide, C8_copy_selected_is_filter_of_registry (constRender 0) copyStart 6 0
    Scene.raw ((copyStart.sceneAt 0).getD Scene.raw) (by decide) (by decide) rfl rfl
    (by decide) (by decide) (by decide)⟩

theorem copy_never (rs : RenderSystem) (w : World) (a r : Nat) (this rhs : Scene)
    (hthis : w.sceneAt a = some this) (hrhs : w.sceneAt r = some rhs)
    (hlen : UNSIGNED_MOD ≤ rhs.shapes.length) :
    Scene.copy rs w a r = none := by
  unfold Scene.copy
  simp only [hthis, hrhs]
  rw [copyShapes_never rhs.shapes hlen _ _ 0 _ _ (by decide)]

/-- Counterexample to C8 as stated: for a source scene with 2^32 + 1 live shapes and an
empty destination, the shape loop of Scene::copy cannot end (its `unsigned` counter
never reaches the size), so the call yields no copy. -/
theorem C8_counterexample_copy_never_returns :
    hugeStart.sceneAt 6 = some Scene.raw ∧
    hugeStart.sceneAt 0 = some hugeScene ∧
    hugeScene.shapes.length = UNSIGNED_MOD + 1 ∧
    (∀ p ∈ hugeScene.shapes, (hugeStart.shapeAt p).isSome = true) ∧
    (∀ kv ∈ hugeScene.modes, (hugeStart.modeAt kv.2).isSome = true) ∧
    Scene.copy (constRender 0) hugeStart 6 0 = none := by
  have hdst : hugeStart.sceneAt 6 = some Scene.raw := rfl
  have hsrc : hugeStart.sceneAt 0 = some hugeScene := rfl
  have hshapes : hugeScene.shapes = List.replicate UNSIGNED_MOD 4 ++ [3] := rfl
  have hlen : hugeScene.shapes.length = UNSIGNED_MOD + 1 := by
    rw [hshapes, List.length_append, List.length_replicate]; rfl
  refine ⟨hdst, hsrc, hlen, ?_, by decide, ?_⟩
  · intro p hp
    rw [hshapes] at hp
    rcases List.mem_append.mp hp with hp | hp
    · rw [List.eq_of_mem_replicate hp]; decide
    · rw [List.mem_singleton.mp hp]; decide
  · exact copy_never (constRender 0) hugeStart 6 0 Scene.raw hugeScene hdst hsrc (by omega)

/-- C7 (evaluation at the failing input). Copy-constructing from a scene whose registry is
(circle, line, circle): the source registry has 3 entries, the copy's registry has 2,
both circles; the line has no clone. -/
theorem C7_copy_skips_line_shapes :
    registryKinds mixedWorld 0
        = some [some SHAPES.CIRCLE, some SHAPES.LINE, some SHAPES.CIRCLE] ∧
      (Scene.copyConstruct (constRender 0) mixedWorld 0).bind
          (fun r => registryKinds r.2 r.1)
        = some [some SHAPES.CIRCLE, some SHAPES.CIRCLE] := by
  decide

/-- C5 (evaluation at the failing input). Copy-constructing from a new scene (at address
0): the copy is the scene object at 3 and its node-creation mode, at 4, holds the
container pointers of the source scene 0; a click with 0 hits handled by that mode
appends the new circle to the registry of scene 0 and leaves the copy's registry empty. -/
theorem C5_cloned_mode_points_at_source_containers :
    (Scene.copyConstruct (constRender 0) oneScene 0).map Prod.fst = some 3 ∧
      ((Scene.copyConstruct (constRender 0) oneScene 0).bind
        (fun r => r.2.sceneAt 3)).map Scene.modes
          = some [(MODES.NODECREATION, 4), (MODES.EDGECREATION, 5)] ∧
      (Scene.copyConstruct (constRender 0) oneScene 0).bind (fun r => r.2.modeAt 4)
        = some (NodeCreationMode.new (some 0) (some 0)) ∧
      (((Scene.copyConstruct (constRender 0) oneScene 0).bind
          (fun r => Mode.handleClick (constRender 0) r.2 4 5 5 0 [])).bind
        (fun w => w.sceneAt 0)).map Scene.shapes = some [6] ∧
      (((Scene.copyConstruct (constRender 0) oneScene 0).bind
          (fun r => Mode.handleClick (constRender 0) r.2 4 5 5 0 [])).bind
        (fun w => w.sceneAt 3)).map Scene.shapes = some [] := by
  decide

/-- C10 (evaluation at the failing input). After copy construction from a new scene the
copy's `currentMode` was never assigned, although its mode map holds two modes; after
`a = b` between two new scenes, `a.currentMode` still holds the address of the mode that
`destroy` released, which is not in the new mode map of `a`. -/
theorem C10_copy_leaves_currentMode_unset :
    ((Scene.copyConstruct (constRender 0) oneScene 0).bind
        (fun r => r.2.sceneAt r.1)).map Scene.currentMode = some none ∧
      ((Scene.copyConstruct (constRender 0) oneScene 0).bind
        (fun r => r.2.sceneAt r.1)).map Scene.modes
          = some [(MODES.NODECREATION, 4), (MODES.EDGECREATION, 5)] ∧
      ((Scene.assign (constRender 0) twoScenes 0 3).bind
        (fun w => w.sceneAt 0)).map Scene.currentMode = some (some 1) ∧
      ((Scene.assign (constRender 0) twoScenes 0 3).bind
        (fun w => w.sceneAt 0)).map Scene.modes
          = some [(MODES.NODECREATION, 6), (MODES.EDGECREATION, 7)] ∧
      (Scene.assign (constRender 0) twoScenes 0 3).map (fun w => w.modeAt 1) = some none ∧
      (twoScenes.sceneAt 3).map Scene.currentMode = some (some 4) := by
  decide


theorem capForm_double (c : Nat) (h : CapForm c)
    (hle : c ≤ (c <<< 1) % UNSIGNED_MOD) :
    (c <<< 1) % UNSIGNED_MOD = 2 * c ∧ CapForm ((c <<< 1) % UNSIGNED_MOD) := by
  obtain ⟨k, hk, rfl⟩ := h
  rw [Nat.shiftLeft_eq] at hle ⊢
  have hk27 : k ≠ 27 := by
    intro h27
    subst h27
    norm_num [UNSIGNED_MOD] at hle
  have hk26 : k ≤ 26 := by omega
  have hpow26 : 2 ^ k ≤ 2 ^ 26 := Nat.pow_le_pow_right (by norm_num) hk26
  have hlt2 : 16 * 2 ^ k * 2 ^ 1 < UNSIGNED_MOD := by
    unfold UNSIGNED_MOD
    omega
  rw [Nat.mod_eq_of_lt hlt2]
  refine ⟨by ring, k + 1, by omega, ?_⟩
  rw [pow_succ]
  ring

theorem double_of_lt (c : Nat) (h : c < 2 ^ 31) : (c <<< 1) % UNSIGNED_MOD = 2 * c := by
  rw [Nat.shiftLeft_eq]
  unfold UNSIGNED_MOD
  rw [Nat.mod_eq_of_lt (by omega)]
  omega

theorem destroyShapes_frame (l : List Nat) :
    ∀ (fuel : Nat) (w : World) (i : Nat) (w1 : World),
      Scene.destroyShapes l fuel w i = some w1 →
      w1.sceneAt = w.sceneAt ∧ w1.next = w.next := by
  intro fuel
  induction fuel with
  | zero =>
    intro w i w1 h
    unfold Scene.destroyShapes at h
    by_cases hlt : i < l.length
    · simp [hlt] at h
    · simp only [hlt, if_false, Option.some.injEq] at h
      subst h
      exact ⟨rfl, rfl⟩
  | succ fuel ih =>
    intro w i w1 h
    unfold Scene.destroyShapes at h
    by_cases hlt : i < l.length
    · simp only [hlt, if_true] at h
      cases hg : l[i]? with
      | none => simp [hg] at h
      | some p =>
        simp only [hg] at h
        cases hsh : w.shapeAt p with
        | none => simp [hsh] at h
        | some sh =>
          simp only [hsh] at h
          obtain ⟨h1, h2⟩ := ih (w.setShape p none) _ _ h
          exact ⟨h1, h2⟩
    · simp only [hlt, if_false, Option.some.injEq] at h
      subst h
      exact ⟨rfl, rfl⟩

theorem destroyModes_frame (l : List (MODES × Nat)) :
    ∀ (w w1 : World), Scene.destroyModes l w = some w1 →
      w1.sceneAt = w.sceneAt ∧ w1.next = w.next := by
  induction l with
  | nil =>
    intro w w1 h
    simp only [Scene.destroyModes, Option.some.injEq] at h
    subst h
    exact ⟨rfl, rfl⟩
  | cons kv rest ih =>
    intro w w1 h
    unfold Scene.destroyModes at h
    cases hm : w.modeAt kv.2 with
    | none => simp [hm] at h
    | some m =>
      simp only [hm] at h
      obtain ⟨h1, h2⟩ := ih (w.setMode kv.2 none) _ h
      exact ⟨h1, h2⟩

/-- What a completed call of Scene::destroy leaves of the scene objects. -/
theorem destroy_result (w : World) (a : Nat) (w1 : World) (h : Scene.destroy w a = some w1) :
    ∃ s s1, w.sceneAt a = some s ∧ w1.sceneAt a = some s1 ∧
      s1.bufferSize = s.bufferSize ∧ s1.currentMode = s.currentMode ∧
      s1.shapes = [] ∧ s1.selected = [] ∧ s1.modes = [] ∧
      (∀ b, b ≠ a → w1.sceneAt b = w.sceneAt b) ∧ w1.next = w.next := by
  unfold Scene.destroy at h
  cases hs : w.sceneAt a with
  | none => simp [hs] at h
  | some s =>
    simp only [hs] at h
    cases hd : Scene.destroyShapes s.shapes s.shapes.length w 0 with
    | none => simp [hd] at h
    | some w2 =>
      simp only [hd] at h
      cases hm : Scene.destroyModes s.modes w2 with
      | none => simp [hm] at h
      | some w3 =>
        simp only [hm, Option.some.injEq] at h
        obtain ⟨f1, f2⟩ := destroyShapes_frame _ _ _ _ _ hd
        obtain ⟨g1, g2⟩ := destroyModes_frame _ _ _ hm
        refine ⟨s, { s with pickBuffer := [], shapes := [], selected := [], modes := [] },
          rfl, ?_, rfl, rfl, rfl, rfl, rfl, ?_, ?_⟩
        · rw [← h]; simp [World.setScene]
        · intro b hb
          rw [← h]
          simp only [World.setScene, hb, if_false]
          rw [g1, f1]
        · rw [← h]
          show w3.next = w.next
          rw [g2, f2]

/-- What a completed call of Scene::copy leaves of the scene objects. -/
theorem copy_result (rs : RenderSystem) (w : World) (a r : Nat) (w1 : World)
    (h : Scene.copy rs w a r = some w1) :
    ∃ this rhs s1, w.sceneAt a = some this ∧ w.sceneAt r = some rhs ∧
      w1.sceneAt a = some s1 ∧ s1.bufferSize = rhs.bufferSize ∧
      s1.currentMode = this.currentMode ∧
      (∀ b, b ≠ a → w1.sceneAt b = w.sceneAt b) ∧ w.next ≤ w1.next := by
  unfold Scene.copy at h
  cases hthis : w.sceneAt a with
  | none => simp [hthis] at h
  | some this =>
    cases hrhs : w.sceneAt r with
    | none => simp [hthis, hrhs] at h
    | some rhs =>
      simp only [hthis, hrhs] at h
      cases hcs : Scene.copyShapes rhs.shapes rhs.shapes.length w 0 this.shapes
          this.selected with
      | none => simp [hcs] at h
      | some res =>
        obtain ⟨w2, sh2, sel2⟩ := res
        simp only [hcs] at h
        cases hcm : Scene.copyModes rs w2 rhs.modes this.modes with
        | none => simp [hcm] at h
        | some res2 =>
          obtain ⟨w3, modes3⟩ := res2
          simp only [hcm, Option.some.injEq] at h
          obtain ⟨f1, -, f3⟩ := copyShapes_frame _ _ _ _ _ _ _ _ _ hcs
          obtain ⟨g1, -, g3⟩ := copyModes_frame _ _ _ _ _ _ hcm
          refine ⟨this, rhs, { this with
              bufferSize := rhs.bufferSize
              pickBuffer := rhs.pickBuffer.take rhs.bufferSize
              shapes := sh2
              selected := sel2
              modes := modes3 }, rfl, rfl, ?_, ?_, ?_, ?_, ?_⟩
          · rw [← h]; simp [World.setScene]
          · rfl
          · rfl
          · intro b hb
            rw [← h]
            simp only [World.setScene, hb, if_false]
            rw [g1, f1]
          · rw [← h]
            show w.next ≤ w3.next
            omega

theorem new_result (w : World) :
    (Scene.new w).2.next = w.next + 3 ∧
    (∃ s, (Scene.new w).2.sceneAt w.next = some s ∧
      s.bufferSize = GRAPHIX_DEFAULT_PICK_BUFFER_SIZE) ∧
    ∀ b, b ≠ w.next → (Scene.new w).2.sceneAt b = w.sceneAt b := by
  refine ⟨rfl, ?_, ?_⟩
  · cases hs : (Scene.new w).2.sceneAt w.next with
    | none => simp [Scene.new, World.setScene] at hs
    | some s =>
      refine ⟨s, rfl, ?_⟩
      simp only [Scene.new, World.setScene, if_true, Option.some.injEq] at hs
      rw [← hs]
  intro b hb
  simp [Scene.new, World.setScene, World.newMode, World.setMode, hb]

theorem resize_result (w : World) (a : Nat) (w1 : World)
    (h : Scene.resizePickBuffer w a = some w1) :
    ∃ s s1, w.sceneAt a = some s ∧ w1.sceneAt a = some s1 ∧
      s1.bufferSize = (s.bufferSize <<< 1) % UNSIGNED_MOD ∧
      s.bufferSize ≤ (s.bufferSize <<< 1) % UNSIGNED_MOD ∧
      (∀ b, b ≠ a → w1.sceneAt b = w.sceneAt b) ∧ w1.next = w.next := by
  unfold Scene.resizePickBuffer at h
  cases hs : w.sceneAt a with
  | none => simp [hs] at h
  | some s =>
    simp only [hs] at h
    by_cases hle : s.bufferSize ≤ (s.bufferSize <<< 1) % UNSIGNED_MOD
    · simp only [hle, if_true, Option.some.injEq] at h
      refine ⟨s, { s with
        pickBuffer := s.pickBuffer
        bufferSize := (s.bufferSize <<< 1) % UNSIGNED_MOD }, rfl, ?_, rfl, hle, ?_, ?_⟩
      · rw [← h]; simp [World.setScene]
      · intro b hb; rw [← h]; simp [World.setScene, hb]
      · rw [← h]; rfl
    · simp [hle] at h

theorem resize_total (w : World) (a : Nat) (s : Scene) (hs : w.sceneAt a = some s)
    (hlt : s.bufferSize < 2 ^ 31) :
    ∃ w1, Scene.resizePickBuffer w a = some w1 ∧
      (w1.sceneAt a).map Scene.bufferSize = some (2 * s.bufferSize) := by
  have hd := double_of_lt _ hlt
  have hle : s.bufferSize ≤ (s.bufferSize <<< 1) % UNSIGNED_MOD := by rw [hd]; omega
  refine ⟨w.setScene a (some { s with
    pickBuffer := s.pickBuffer
    bufferSize := (s.bufferSize <<< 1) % UNSIGNED_MOD }), ?_, ?_⟩
  · unfold Scene.resizePickBuffer
    simp only [hs, hle, if_true]
  · simp [World.setScene, hd]

theorem copyConstruct_result (rs : RenderSystem) (w : World) (r a : Nat) (w1 : World)
    (h : Scene.copyConstruct rs w r = some (a, w1)) :
    a = w.next ∧ w.next < w1.next ∧
    (∀ b, b ≠ a → w1.sceneAt b = w.sceneAt b) ∧
    ∃ s1, w1.sceneAt a = some s1 ∧ s1.currentMode = none ∧
      (r ≠ a → ∃ rhs, w.sceneAt r = some rhs ∧ s1.bufferSize = rhs.bufferSize) := by
  unfold Scene.copyConstruct at h
  cases hr0 : w.sceneAt r with
  | none => simp [hr0] at h
  | some rhs0 =>
    simp only [hr0] at h
    cases hc : Scene.copy rs
        (({ w with next := w.next + 1 } : World).setScene w.next (some Scene.raw)) w.next r with
    | none => simp [hc] at h
    | some w2 =>
      simp only [hc, Option.some.injEq, Prod.mk.injEq] at h
      obtain ⟨ha, hw⟩ := h
      subst hw
      subst ha
      obtain ⟨this, rhs, s1, hthis, hrhs, hs1, hbuf, hcur, hother, hnext⟩ :=
        copy_result rs _ _ _ _ hc
      have hthis1 : this = Scene.raw := by
        simp [World.setScene] at hthis
        exact hthis.symm
      refine ⟨rfl, ?_, ?_, s1, hs1, ?_, ?_⟩
      · have : w.next + 1 ≤ w2.next := hnext
        omega
      · intro b hb
        rw [hother b hb]
        simp [World.setScene, hb]
      · rw [hcur, hthis1]; rfl
      · intro hr
        refine ⟨rhs, ?_, hbuf⟩
        have h1 : w.sceneAt r = some rhs := by simpa [World.setScene, hr] using hrhs
        rw [hr0] at h1
        exact h1

theorem assign_result (rs : RenderSystem) (w : World) (a r : Nat) (w1 : World)
    (h : Scene.assign rs w a r = some w1) :
    w.next ≤ w1.next ∧ (∀ b, b ≠ a → w1.sceneAt b = w.sceneAt b) ∧
    ∃ s rhs s1, w.sceneAt a = some s ∧ w.sceneAt r = some rhs ∧ w1.sceneAt a = some s1 ∧
      s1.bufferSize = rhs.bufferSize ∧ s1.currentMode = s.currentMode := by
  unfold Scene.assign at h
  by_cases har : a = r
  · subst har
    simp only [ne_eq, not_true_eq_false, if_false] at h
    cases hs : w.sceneAt a with
    | none => simp [hs] at h
    | some s =>
      simp only [hs, Option.some.injEq] at h
      subst h
      exact ⟨le_refl _, fun _ _ => rfl, s, s, s, rfl, rfl, hs, rfl, rfl⟩
  · simp only [ne_eq, har, not_false_eq_true, if_true] at h
    cases hd : Scene.destroy w a with
    | none => simp [hd] at h
    | some wd =>
      simp only [hd] at h
      obtain ⟨s, sd, hs, hsd, -, hdc, -, -, -, hdo, hdn⟩ := destroy_result w a wd hd
      obtain ⟨this, rhs, s1, hthis, hrhs, hs1, hbuf, hcur, hother, hnext⟩ :=
        copy_result rs _ _ _ _ h
      rw [hsd] at hthis
      cases hthis
      refine ⟨by omega, ?_, s, rhs, s1, hs, ?_, hs1, hbuf, ?_⟩
      · intro b hb; rw [hother b hb, hdo b hb]
      · rw [← hdo r (Ne.symm har)]; exact hrhs
      · rw [hcur, hdc]


theorem op_preserves (rs : RenderSystem) (w : World) (op : Op) (w1 : World)
    (hinv : CapInv w) (h : op.apply rs w = some w1) :
    CapInv w1 ∧
    ∀ b s, w.sceneAt b = some s → (∀ r, op ≠ Op.assign b r) →
      ∃ s1, w1.sceneAt b = some s1 ∧ s.bufferSize ≤ s1.bufferSize := by
  cases op with
  | construct =>
    simp only [Op.apply, Option.some.injEq] at h
    subst h
    obtain ⟨hn, ⟨s0, hs0, hcap⟩, hother⟩ := new_result w
    constructor
    · intro b sb hb
      by_cases hbn : b = w.next
      · subst hbn
        rw [hs0] at hb
        cases hb
        exact ⟨by omega, ⟨0, by omega, by rw [hcap]; rfl⟩⟩
      · rw [hother b hbn] at hb
        have := hinv b sb hb
        exact ⟨by omega, this.2⟩
    · intro b s hb _
      have hbn : b ≠ w.next := Nat.ne_of_lt (hinv b s hb).1
      exact ⟨s, by rw [hother b hbn]; exact hb, le_refl _⟩
  | pick a x y =>
    simp only [Op.apply] at h
    cases hp : Scene.pickScene rs w a x y with
    | none => simp [hp] at h
    | some res =>
      obtain ⟨hits, w2⟩ := res
      simp only [hp, Option.map_some', Option.some.injEq] at h
      subst h
      obtain ⟨s0, p, m, calls, hs0, -, -, -, -, hw⟩ := pickScene_result rs w a x y hits _ hp
      constructor
      · intro b sb hb
        rw [hw] at hb
        by_cases hba : b = a
        · subst hba
          simp only [World.setScene, if_true, Option.some.injEq] at hb
          have := hinv b s0 hs0
          rw [← hb]
          exact ⟨by rw [hw]; exact this.1, this.2⟩
        · simp only [World.setScene, hba, if_false] at hb
          have := hinv b sb hb
          exact ⟨by rw [hw]; exact this.1, this.2⟩
      · intro b s hb _
        by_cases hba : b = a
        · subst hba
          rw [hs0] at hb
          cases hb
          refine ⟨{ s0 with
            viewport := w.glViewport
            pickBuffer := (rs.hitRecords s0.bufferSize (armedShapes w calls) x y
              w.glViewport).take s0.bufferSize }, ?_, le_refl _⟩
          rw [hw]; simp [World.setScene]
        · exact ⟨s, by rw [hw]; simpa [World.setScene, hba] using hb, le_refl _⟩
  | resize a =>
    simp only [Op.apply] at h
    obtain ⟨s0, s1, hs0, hs1, hbuf, hle, hother, hn⟩ := resize_result w a w1 h
    obtain ⟨hdouble, hform⟩ := capForm_double _ (hinv a s0 hs0).2 hle
    constructor
    · intro b sb hb
      by_cases hba : b = a
      · subst hba
        rw [hs1] at hb
        cases hb
        have := hinv b s0 hs0
        exact ⟨by omega, by rw [hbuf]; exact hform⟩
      · rw [hother b hba] at hb
        have := hinv b sb hb
        exact ⟨by omega, this.2⟩
    · intro b s hb _
      by_cases hba : b = a
      · subst hba
        rw [hs0] at hb
        cases hb
        exact ⟨s1, hs1, by rw [hbuf]; exact hle⟩
      · exact ⟨s, by rw [hother b hba]; exact hb, le_refl _⟩
  | copyConstruct r =>
    simp only [Op.apply] at h
    cases hc : Scene.copyConstruct rs w r with
    | none => simp [hc] at h
    | some res =>
      obtain ⟨a, w2⟩ := res
      simp only [hc, Option.map_some', Option.some.injEq] at h
      subst h
      obtain ⟨ha, hn, hother, s1, hs1, -, hbuf1⟩ := copyConstruct_result rs w r a _ hc
      have hra : r ≠ a := by
        intro hra
        have hex : ∃ rhs, w.sceneAt r = some rhs := by
          unfold Scene.copyConstruct at hc
          cases hr0 : w.sceneAt r with
          | none => simp [hr0] at hc
          | some rhs0 => exact ⟨rhs0, rfl⟩
        obtain ⟨rhs, hrhs⟩ := hex
        have := (hinv r rhs hrhs).1
        omega
      constructor
      · intro b sb hb
        by_cases hba : b = a
        · subst hba
          rw [hs1] at hb
          cases hb
          refine ⟨by omega, ?_⟩
          obtain ⟨rhs, hrhs, hb2⟩ := hbuf1 hra
          rw [hb2]; exact (hinv r rhs hrhs).2
        · rw [hother b hba] at hb
          have := hinv b sb hb
          exact ⟨by omega, this.2⟩
      · intro b s hb _
        have hba : b ≠ a := by
          have := (hinv b s hb).1
          omega
        exact ⟨s, by rw [hother b hba]; exact hb, le_refl _⟩
  | assign a r =>
    simp only [Op.apply] at h
    obtain ⟨hn, hother, s0, rhs, s1, hs0, hrhs, hs1, hbuf, -⟩ := assign_result rs w a r w1 h
    constructor
    · intro b sb hb
      by_cases hba : b = a
      · subst hba
        rw [hs1] at hb
        cases hb
        have := hinv b s0 hs0
        exact ⟨by omega, by rw [hbuf]; exact (hinv r rhs hrhs).2⟩
      · rw [hother b hba] at hb
        have := hinv b sb hb
        exact ⟨by omega, this.2⟩
    · intro b s hb hne
      have hba : b ≠ a := by
        intro hba
        subst hba
        exact hne r rfl
      exact ⟨s, by rw [hother b hba]; exact hb, le_refl _⟩

theorem run_preserves (rs : RenderSystem) (ops : List Op) :
    ∀ w w1 : World, CapInv w → run rs w ops = some w1 → CapInv w1 := by
  induction ops with
  | nil =>
    intro w w1 hinv h
    simp only [run, Option.some.injEq] at h
    subst h
    exact hinv
  | cons op rest ih =>
    intro w w1 hinv h
    unfold run at h
    cases ha : op.apply rs w with
    | none => simp [ha] at h
    | some w2 =>
      simp only [ha] at h
      exact ih w2 w1 (op_preserves rs w op w2 hinv ha).1 h

/-- C6 (amended). In every state reached from the empty program by a sequence of
completed scene constructions, pick queries, `resizePickBuffer` calls, copy
constructions and assignments, each scene's capacity is 16 * 2^k for some k of at most
27; a further completed operation other than an assignment to that scene leaves the
scene with a capacity at least as large; `resizePickBuffer` at a capacity below 2^31
completes and doubles the capacity; an assignment gives its destination the capacity of
its source. -/
theorem C6_capacity_invariant (rs : RenderSystem) (ops : List Op) (w : World)
    (hrun : run rs World.empty ops = some w) :
    (∀ a s, w.sceneAt a = some s → ∃ k, k ≤ 27 ∧ s.bufferSize = 16 * 2 ^ k) ∧
    (∀ op w1, op.apply rs w = some w1 →
      ∀ b s, w.sceneAt b = some s → (∀ r, op ≠ Op.assign b r) →
        ∃ s1, w1.sceneAt b = some s1 ∧ s.bufferSize ≤ s1.bufferSize) ∧
    (∀ a s, w.sceneAt a = some s → s.bufferSize < 2 ^ 31 →
      ∃ w1, Scene.resizePickBuffer w a = some w1 ∧
        (w1.sceneAt a).map Scene.bufferSize = some (2 * s.bufferSize)) ∧
    (∀ a r w1 rhs, Scene.assign rs w a r = some w1 → w.sceneAt r = some rhs →
      (w1.sceneAt a).map Scene.bufferSize = some rhs.bufferSize) := by
  have hinv : CapInv w := by
    apply run_preserves rs ops World.empty w _ hrun
    intro a s hs
    simp [World.empty] at hs
  refine ⟨fun a s hs => (hinv a s hs).2, ?_, ?_, ?_⟩
  · intro op w1 hop
    exact (op_preserves rs w op w1 hinv hop).2
  · intro a s hs hlt
    exact resize_total w a s hs hlt
  · intro a r w1 rhs hassign hrhs
    obtain ⟨-, -, s0, rhs1, s1, -, hrhs1, hs1, hbuf, -⟩ := assign_result rs w a r w1 hassign
    rw [hrhs] at hrhs1
    cases hrhs1
    rw [hs1]
    simp [hbuf]

/-- Witness for C6: two scenes, one doubling on the first, a pick query and a copy. -/
theorem C6_capacity_invariant_witness :
    ((run (constRender 0) World.empty
        [Op.construct, Op.construct, Op.resize 0, Op.pick 3 5 5, Op.copyConstruct 0]).bind
      (fun w => w.sceneAt 0)).map Scene.bufferSize = some 32 ∧
    ∀ a s, ((run (constRender 0) World.empty
        [Op.construct, Op.construct, Op.resize 0, Op.pick 3 5 5, Op.copyConstruct 0]).getD
          World.empty).sceneAt a = some s →
      ∃ k, k ≤ 27 ∧ s.bufferSize = 16 * 2 ^ k :=
  ⟨by decide, (C6_capacity_invariant (constRender 0)
    [Op.construct, Op.construct, Op.resize 0, Op.pick 3 5 5, Op.copyConstruct 0]
    ((run (constRender 0) World.empty
      [Op.construct, Op.construct, Op.resize 0, Op.pick 3 5 5, Op.copyConstruct 0]).getD
        World.empty) rfl).1⟩

/-- Counterexample to C6 as stated: after `Scene a; Scene b; a.resizePickBuffer();` the
capacity of `a` is 32, and after the further operation `a = b;` it is 16: an operation
of the sequence made the capacity smaller than it was before. -/
theorem C6_counterexample_capacity_shrinks :
    ((run (constRender 0) World.empty [Op.construct, Op.construct, Op.resize 0]).bind
      (fun w => w.sceneAt 0)).map Scene.bufferSize = some 32 ∧
    ((run (constRender 0) World.empty
        [Op.construct, Op.construct, Op.resize 0, Op.assign 0 3]).bind
      (fun w => w.sceneAt 0)).map Scene.bufferSize = some 16 ∧
    (16 : Nat) < 32 := by
  decide

end GRAPHIX
